import Mathlib

/-!
Verification of the pixel-physics-sim tick engine against its specification.

This file gives a shallow embedding, in Lean, of the parts of the C source
that the checked claims are about:

  - the material table (src/materials/material.c) and behavior helpers,
  - the grid / world operations (world.c: get, set, flags, swap, chunk
    activation, chunk queries),
  - the simulation driver (simulation.c: fixed timestep update loop and RNG),
  - the powder stage (powder.c: movement decision, density displacement),
  - the fire and gas stages (fire.c: fire death, steam condensation,
    traversal order of fire_update),
  - the thermal stage (thermal.c: diffusion pass, phase-change pass,
    temperature buffer swap).

Modelling conventions:

  - C float arithmetic is modelled with exact rationals; the C literals are
    taken at their decimal value.  No claim below depends on binary float
    rounding.
  - C int / uint32 / int16 values are modelled with Int and Nat; where the
    C source reduces a value mod 2^32 we do so explicitly.  The signed
    16-bit velocity values are modelled as unbounded Int (the stage clamps
    them to the small terminal-velocity range before they could wrap).
  - The xorshift-driven random stream of the simulation is modelled as a
    function from a draw counter to uint32 values; randf converts a draw to
    the rational value drawn by the C code.  Cell-update functions take the
    stream and the current draw counter, and return the advanced counter.
  - Grids are total functions from integer coordinates; every C access is
    guarded exactly as in the source, so values outside the grid are never
    read except through the guarded accessors.
  - Some cell-update embeddings additionally return a small outcome tag
    recording which branch of the C function ran.  The tag is derived from
    the control flow only; the returned world is computed exactly as in C.
-/

/- ============================================================
   Material system (core/types.h, materials/material.c)
   ============================================================ -/

/-- Material state enumeration from types.h. -/
inductive MaterialState where
  | empty
  | solid
  | powder
  | fluid
  | gas
deriving DecidableEq, Repr

/-- Material ids from types.h. -/
abbrev MaterialID := ℕ

def MAT_EMPTY : MaterialID := 0

def MAT_SAND : MaterialID := 1

def MAT_STONE : MaterialID := 2

def MAT_WATER : MaterialID := 3

def MAT_WOOD : MaterialID := 4

def MAT_FIRE : MaterialID := 5

def MAT_SMOKE : MaterialID := 6

def MAT_SOIL : MaterialID := 7

def MAT_ICE : MaterialID := 8

def MAT_STEAM : MaterialID := 9

def MAT_ASH : MaterialID := 10

def MAT_ACID : MaterialID := 11

def MAT_COUNT : ℕ := 12

/-- Truncation of a rational toward zero, the semantics of a C float-to-int
cast.  Used by the FIXED_FROM_FLOAT macro. -/
def ratTrunc (q : ℚ) : ℤ := q.num.tdiv (q.den : ℤ)

/-- FIXED_FROM_FLOAT from types.h: 8.8 fixed point, C cast truncates. -/
def FIXED_FROM_FLOAT (q : ℚ) : ℤ := ratTrunc (q * 256)

/-- FIXED_MUL from types.h: (a * b) >> 8 on int32, an arithmetic right
shift, which is floor division by 256. -/
def FIXED_MUL (a b : ℤ) : ℤ := (a * b).fdiv 256

/-- FIXED_ABS from types.h. -/
def FIXED_ABS (x : ℤ) : ℤ := if x < 0 then -x else x

/-- CLAMP macro from types.h: MIN(MAX(x, lo), hi). -/
def CLAMP (x lo hi : ℤ) : ℤ := min (max x lo) hi

/-- Material property record, the fields of MaterialProps that the verified
stages read (float fields as exact rationals). -/
structure MaterialProps where
  state : MaterialState
  density : ℚ
  cohesion : ℚ
  gravity_scale : ℚ
  drag_coeff : ℚ
  terminal_velocity : ℚ
  flow_rate : ℚ
  settle_probability : ℚ
  slide_bias : ℚ
  conductivity : ℚ
  heat_capacity : ℚ
  melting_temp : ℚ
  boiling_temp : ℚ
deriving DecidableEq

/-- GRAVITY_ACCEL from types.h. -/
def GRAVITY_ACCEL : ℚ := 8 / 100

/-- Derived fixed-point gravity step computed by material_finalize_fixed. -/
def MaterialProps.gravity_step_fixed (m : MaterialProps) : ℤ :=
  FIXED_FROM_FLOAT (GRAVITY_ACCEL * m.gravity_scale)

/-- Derived fixed-point drag factor computed by material_finalize_fixed. -/
def MaterialProps.drag_factor_fixed (m : MaterialProps) : ℤ :=
  FIXED_FROM_FLOAT (1 - m.drag_coeff)

/-- Derived fixed-point terminal velocity computed by
material_finalize_fixed. -/
def MaterialProps.terminal_velocity_fixed (m : MaterialProps) : ℤ :=
  FIXED_FROM_FLOAT m.terminal_velocity

/-- Properties of MAT_EMPTY from material_init. -/
def emptyProps : MaterialProps :=
  { state := .empty, density := 1225 / 1000, cohesion := 0, gravity_scale := 0
    drag_coeff := 1, terminal_velocity := 0, flow_rate := 0
    settle_probability := 0, slide_bias := 1 / 2, conductivity := 0
    heat_capacity := 0, melting_temp := 0, boiling_temp := 0 }

/-- Material table from material_init, indexed by material id; ids at or
above MAT_COUNT yield the MAT_EMPTY record exactly as material_get does. -/
def material_get (id : MaterialID) : MaterialProps :=
  match id with
  | 0 => emptyProps
  | 1 => { state := .powder, density := 1600, cohesion := 15 / 100
           gravity_scale := 12 / 10, drag_coeff := 25 / 100
           terminal_velocity := 35 / 10, flow_rate := 0
           settle_probability := 25 / 100, slide_bias := 1 / 2
           conductivity := 3 / 10, heat_capacity := 8 / 10
           melting_temp := 1700, boiling_temp := 9999 }
  | 2 => { state := .solid, density := 2600, cohesion := 1
           gravity_scale := 0, drag_coeff := 1, terminal_velocity := 0
           flow_rate := 0, settle_probability := 1, slide_bias := 1 / 2
           conductivity := 8 / 10, heat_capacity := 9 / 10
           melting_temp := 1200, boiling_temp := 9999 }
  | 3 => { state := .fluid, density := 1000, cohesion := 0
           gravity_scale := 1, drag_coeff := 1 / 10, terminal_velocity := 4
           flow_rate := 6 / 10, settle_probability := 0, slide_bias := 1 / 2
           conductivity := 6 / 10, heat_capacity := 42 / 10
           melting_temp := 0, boiling_temp := 100 }
  | 4 => { state := .solid, density := 600, cohesion := 1
           gravity_scale := 0, drag_coeff := 1, terminal_velocity := 0
           flow_rate := 0, settle_probability := 1, slide_bias := 1 / 2
           conductivity := 15 / 100, heat_capacity := 17 / 10
           melting_temp := 9999, boiling_temp := 9999 }
  | 5 => { state := .gas, density := 4 / 10, cohesion := 0
           gravity_scale := -3 / 10, drag_coeff := 2 / 10
           terminal_velocity := 2, flow_rate := 7 / 10
           settle_probability := 0, slide_bias := 1 / 2
           conductivity := 1 / 10, heat_capacity := 1 / 10
           melting_temp := 9999, boiling_temp := 9999 }
  | 6 => { state := .gas, density := 6 / 10, cohesion := 0
           gravity_scale := -1 / 10, drag_coeff := 8 / 10
           terminal_velocity := 12 / 10, flow_rate := 5 / 10
           settle_probability := 0, slide_bias := 1 / 2
           conductivity := 2 / 100, heat_capacity := 1 / 10
           melting_temp := 9999, boiling_temp := 9999 }
  | 7 => { state := .powder, density := 1800, cohesion := 4 / 10
           gravity_scale := 11 / 10, drag_coeff := 3 / 10
           terminal_velocity := 25 / 10, flow_rate := 0
           settle_probability := 4 / 10, slide_bias := 1 / 2
           conductivity := 5 / 10, heat_capacity := 1
           melting_temp := 9999, boiling_temp := 9999 }
  | 8 => { state := .solid, density := 917, cohesion := 1
           gravity_scale := 0, drag_coeff := 1, terminal_velocity := 0
           flow_rate := 0, settle_probability := 1, slide_bias := 1 / 2
           conductivity := 22 / 10, heat_capacity := 21 / 10
           melting_temp := 0, boiling_temp := 100 }
  | 9 => { state := .gas, density := 6 / 10, cohesion := 0
           gravity_scale := -5 / 10, drag_coeff := 5 / 10
           terminal_velocity := 25 / 10, flow_rate := 6 / 10
           settle_probability := 0, slide_bias := 1 / 2
           conductivity := 2 / 100, heat_capacity := 2
           melting_temp := 0, boiling_temp := 100 }
  | 10 => { state := .powder, density := 500, cohesion := 5 / 100
            gravity_scale := 3 / 10, drag_coeff := 7 / 10
            terminal_velocity := 1, flow_rate := 0
            settle_probability := 15 / 100, slide_bias := 1 / 2
            conductivity := 1 / 10, heat_capacity := 8 / 10
            melting_temp := 9999, boiling_temp := 9999 }
  | 11 => { state := .fluid, density := 1100, cohesion := 0
            gravity_scale := 1, drag_coeff := 15 / 100
            terminal_velocity := 35 / 10, flow_rate := 7 / 10
            settle_probability := 0, slide_bias := 1 / 2
            conductivity := 5 / 10, heat_capacity := 3
            melting_temp := -20, boiling_temp := 120 }
  | _ => emptyProps

/-- material_state lookup: ids at or above MAT_COUNT map to STATE_EMPTY. -/
def material_state (id : MaterialID) : MaterialState := (material_get id).state

/-- material_is_powder lookup. -/
def material_is_powder (id : MaterialID) : Bool := material_state id = .powder

/-- material_is_fluid lookup. -/
def material_is_fluid (id : MaterialID) : Bool := material_state id = .fluid

/-- material_is_solid lookup. -/
def material_is_solid (id : MaterialID) : Bool := material_state id = .solid

/-- material_is_empty lookup. -/
def material_is_empty (id : MaterialID) : Bool := material_state id = .empty

/-- material_is_gas lookup. -/
def material_is_gas (id : MaterialID) : Bool := material_state id = .gas

/- ============================================================
   Cell flags (types.h)
   ============================================================ -/

def FLAG_UPDATED : ℕ := 1

def FLAG_BURNING : ℕ := 4

/- ============================================================
   World model (world.h / world.c)
   ============================================================ -/

/-- CHUNK_SIZE from types.h. -/
def CHUNK_SIZE : ℤ := 32

/-- World state: the SoA grid of world.h.  Per-cell arrays are modelled as
total functions from integer coordinates; the chunk masks as functions
from chunk coordinates.  The fields mat_next, pressure and density are
allocated by the C code but never read or written by the verified stages,
so they are omitted. -/
structure World where
  width : ℤ
  height : ℤ
  mat : ℤ × ℤ → MaterialID
  flags : ℤ × ℤ → ℕ
  color_seed : ℤ × ℤ → ℕ
  temp : ℤ × ℤ → ℚ
  temp_next : ℤ × ℤ → ℚ
  vel_x : ℤ × ℤ → ℤ
  vel_y : ℤ × ℤ → ℤ
  lifetime : ℤ × ℤ → ℕ
  chunk_active : ℤ × ℤ → Bool
  chunk_active_next : ℤ × ℤ → Bool
  cells_updated : ℕ

/-- IN_BOUNDS from types.h (GRID_WIDTH and GRID_HEIGHT are the dimensions
of the world). -/
abbrev IN_BOUNDS (w : World) (x y : ℤ) : Prop :=
  0 ≤ x ∧ x < w.width ∧ 0 ≤ y ∧ y < w.height

/-- CHUNKS_X from types.h. -/
def CHUNKS_X (w : World) : ℤ := (w.width + CHUNK_SIZE - 1) / CHUNK_SIZE

/-- CHUNKS_Y from types.h. -/
def CHUNKS_Y (w : World) : ℤ := (w.height + CHUNK_SIZE - 1) / CHUNK_SIZE

/-- world_get_mat: out of bounds reads return MAT_EMPTY. -/
def world_get_mat (w : World) (x y : ℤ) : MaterialID :=
  if IN_BOUNDS w x y then w.mat (x, y) else MAT_EMPTY

/-- world_has_flag: out of bounds reads return false. -/
def world_has_flag (w : World) (x y : ℤ) (flag : ℕ) : Bool :=
  if IN_BOUNDS w x y then decide (w.flags (x, y) &&& flag ≠ 0) else false

/-- world_add_flag: bitwise or into the flag word, no-op out of bounds. -/
def world_add_flag (w : World) (x y : ℤ) (flag : ℕ) : World :=
  if IN_BOUNDS w x y then
    { w with flags := Function.update w.flags (x, y) (w.flags (x, y) ||| flag) }
  else w

/-- world_remove_flag: clears the flag bits (the C complement of a 16-bit
flag word is its xor with 0xFFFF), no-op out of bounds. -/
def world_remove_flag (w : World) (x y : ℤ) (flag : ℕ) : World :=
  if IN_BOUNDS w x y then
    { w with flags := Function.update w.flags (x, y) (w.flags (x, y) &&& (flag ^^^ 65535)) }
  else w

/-- world_activate_chunk: marks a chunk in the chunk_active_next mask,
ignoring chunk coordinates outside the chunk grid. -/
def world_activate_chunk (w : World) (cx cy : ℤ) : World :=
  if cx < 0 ∨ cx ≥ CHUNKS_X w ∨ cy < 0 ∨ cy ≥ CHUNKS_Y w then w
  else { w with chunk_active_next := Function.update w.chunk_active_next (cx, cy) true }

/-- world_activate_chunk_at: activates the chunk of the cell and the six
neighbor chunks listed in world.c, in source order. -/
def world_activate_chunk_at (w : World) (x y : ℤ) : World :=
  if IN_BOUNDS w x y then
    let cx := x / CHUNK_SIZE
    let cy := y / CHUNK_SIZE
    let w1 := world_activate_chunk w cx cy
    let w2 := world_activate_chunk w1 (cx - 1) cy
    let w3 := world_activate_chunk w2 (cx + 1) cy
    let w4 := world_activate_chunk w3 cx (cy - 1)
    let w5 := world_activate_chunk w4 cx (cy + 1)
    let w6 := world_activate_chunk w5 (cx - 1) (cy + 1)
    world_activate_chunk w6 (cx + 1) (cy + 1)
  else w

/-- world_is_chunk_active: out of range chunk coordinates read false. -/
def world_is_chunk_active (w : World) (cx cy : ℤ) : Bool :=
  if cx < 0 ∨ cx ≥ CHUNKS_X w ∨ cy < 0 ∨ cy ≥ CHUNKS_Y w then false
  else w.chunk_active (cx, cy)

/-- world_set_mat: writes the material, zeroes the velocity of the cell and
activates the chunk neighborhood; no-op out of bounds. -/
def world_set_mat (w : World) (x y : ℤ) (m : MaterialID) : World :=
  if IN_BOUNDS w x y then
    world_activate_chunk_at
      { w with
        mat := Function.update w.mat (x, y) m
        vel_x := Function.update w.vel_x (x, y) 0
        vel_y := Function.update w.vel_y (x, y) 0 } x y
  else w

/-- Swap of one per-cell array between two cells, as done field by field
inside world_swap_cells. -/
def swapAt {α : Type} (f : ℤ × ℤ → α) (p1 p2 : ℤ × ℤ) : ℤ × ℤ → α :=
  Function.update (Function.update f p1 (f p2)) p2 (f p1)

/-- Field-swapping part of world_swap_cells: material, color seed, both
velocity components and lifetime are exchanged between the two cells. -/
def swapFields (w : World) (p1 p2 : ℤ × ℤ) : World :=
  { w with
    mat := swapAt w.mat p1 p2
    color_seed := swapAt w.color_seed p1 p2
    vel_x := swapAt w.vel_x p1 p2
    vel_y := swapAt w.vel_y p1 p2
    lifetime := swapAt w.lifetime p1 p2 }

/-- world_swap_cells: swaps material, color seed, velocity and lifetime of
the two cells, then activates both chunk neighborhoods; no-op if either
cell is out of bounds. -/
def world_swap_cells (w : World) (x1 y1 x2 y2 : ℤ) : World :=
  if ¬ IN_BOUNDS w x1 y1 ∨ ¬ IN_BOUNDS w x2 y2 then w
  else
    world_activate_chunk_at
      (world_activate_chunk_at (swapFields w (x1, y1) (x2, y2)) x1 y1) x2 y2

/- ============================================================
   Simulation driver and RNG (simulation.c)
   ============================================================ -/

/-- xorshift32 with 13/17/5 taps on a 32-bit state, as in simulation.c. -/
def xorshift32 (x : ℕ) : ℕ :=
  let x1 := (x ^^^ (x <<< 13)) % 4294967296
  let x2 := x1 ^^^ (x1 >>> 17)
  (x2 ^^^ (x2 <<< 5)) % 4294967296

/-- Driver state relevant to simulation_rand_range: the per-tick RNG seed
from which simulation_rand draws. -/
structure SimRng where
  tick_seed : ℕ

/-- simulation_rand: advances the tick seed by one xorshift32 step and
returns the new value. -/
def simulation_rand (s : SimRng) : ℕ × SimRng :=
  let v := xorshift32 s.tick_seed
  (v, { tick_seed := v })

/-- simulation_rand_range from simulation.c: the degenerate guard returns
min without drawing; otherwise one simulation_rand draw reduced modulo the
range size. -/
def simulation_rand_range (s : SimRng) (lo hi : ℤ) : ℤ × SimRng :=
  if lo ≥ hi then (lo, s)
  else
    let range : ℕ := (hi - lo + 1).toNat
    let (v, s1) := simulation_rand s
    (lo + (v % range : ℕ), s1)

/-- randf value of one uint32 draw: rand / 0xFFFFFFFF as an exact
rational. -/
def randf (v : ℕ) : ℚ := ((v % 4294967296 : ℕ) : ℚ) / 4294967295

/-- Driver state relevant to simulation_update. -/
structure SimDriver where
  paused : Bool
  step_once : Bool
  accumulator : ℚ
  dt : ℚ
  tick_count : ℕ
deriving DecidableEq

/-- Fixed timestep loop of simulation_update: while the accumulator is at
least dt, run one tick and subtract dt.  The loop is given fuel; the
accumulator cap of simulation_update guarantees six units of fuel always
reach the exit condition (proved in the C7 theorem), so the fueled
function agrees with the C while loop. -/
def sim_fixed_loop : ℕ → ℚ → ℚ → ℚ × ℕ
  | 0, acc, _ => (acc, 0)
  | fuel + 1, acc, dt =>
    if acc ≥ dt then
      let r := sim_fixed_loop fuel (acc - dt) dt
      (r.1, r.2 + 1)
    else (acc, 0)

/-- simulation_update from simulation.c.  Returns the new driver state and
the number of simulation_tick calls made (the grid is mutated only inside
simulation_tick, so zero ticks means the grid is untouched). -/
def simulation_update (s : SimDriver) (real_dt : ℚ) : SimDriver × ℕ :=
  if s.paused ∧ ¬ s.step_once then (s, 0)
  else if s.step_once then
    ({ s with step_once := false, tick_count := s.tick_count + 1 }, 1)
  else
    let acc0 := s.accumulator + real_dt
    let acc1 := if acc0 > s.dt * 5 then s.dt * 5 else acc0
    let r := sim_fixed_loop 6 acc1 s.dt
    ({ s with accumulator := r.1, tick_count := s.tick_count + r.2 }, r.2)

/- ============================================================
   Helper lemmas for the driver loop
   ============================================================ -/

lemma sim_fixed_loop_spec (fuel : ℕ) (acc dt : ℚ) (hdt : 0 < dt)
    (hacc : acc < fuel * dt) :
    (sim_fixed_loop fuel acc dt).1 = acc - (sim_fixed_loop fuel acc dt).2 * dt ∧
    (sim_fixed_loop fuel acc dt).1 < dt ∧
    ∀ j < (sim_fixed_loop fuel acc dt).2, dt ≤ acc - j * dt := by
  induction fuel generalizing acc with
  | zero =>
    rw [Nat.cast_zero, zero_mul] at hacc
    refine ⟨by simp [sim_fixed_loop], ?_, ?_⟩
    · simp only [sim_fixed_loop]
      linarith
    · intro j hj
      simp only [sim_fixed_loop] at hj
      omega
  | succ n ih =>
    by_cases h : acc ≥ dt
    · have hacc2 : acc - dt < n * dt := by
        have : (n + 1 : ℚ) * dt = n * dt + dt := by ring
        push_cast at hacc
        nlinarith
      obtain ⟨h1, h2, h3⟩ := ih (acc - dt) hacc2
      refine ⟨?_, ?_, ?_⟩
      · simp only [sim_fixed_loop, if_pos h]
        push_cast
        rw [h1]
        ring
      · simp only [sim_fixed_loop, if_pos h]
        exact h2
      · intro j hj
        simp only [sim_fixed_loop, if_pos h] at hj
        match j with
        | 0 => simpa using h
        | j + 1 =>
          have := h3 j (by omega)
          push_cast
          push_cast at this
          linarith
    · refine ⟨?_, ?_, ?_⟩
      · simp [sim_fixed_loop, if_neg h]
      · simp only [sim_fixed_loop, if_neg h]
        linarith [not_le.mp h]
      · intro j hj
        simp only [sim_fixed_loop, if_neg h] at hj
        omega

/- ============================================================
   C7: simulation_update contract
   ============================================================ -/

/-- Claim C7: simulation_update runs zero ticks and changes nothing when
paused with no step pending; runs exactly one tick and clears the step
flag when a step is pending; and otherwise adds real_dt to the
accumulator, clamps it to at most 5 dt, and runs one tick per dt while the
accumulator is at least dt, subtracting dt each time (the final
accumulator is below dt, so the C while loop exits exactly there). -/
theorem simulation_update_spec (s : SimDriver) (real_dt : ℚ) (hdt : 0 < s.dt) :
    (s.paused = true → s.step_once = false → simulation_update s real_dt = (s, 0)) ∧
    (s.step_once = true →
      simulation_update s real_dt =
        ({ s with step_once := false, tick_count := s.tick_count + 1 }, 1)) ∧
    (s.paused = false → s.step_once = false →
      let acc1 := min (s.accumulator + real_dt) (s.dt * 5)
      let out := simulation_update s real_dt
      out.1.accumulator = acc1 - out.2 * s.dt ∧
      out.1.accumulator < s.dt ∧
      (∀ j < out.2, s.dt ≤ acc1 - j * s.dt) ∧
      out.1.paused = s.paused ∧ out.1.step_once = false ∧
      out.1.tick_count = s.tick_count + out.2) := by
  refine ⟨?_, ?_, ?_⟩
  · intro hp hs
    simp [simulation_update, hp, hs]
  · intro hs
    simp [simulation_update, hs]
  · intro hp hs
    have hclamp : (if s.accumulator + real_dt > s.dt * 5 then s.dt * 5
        else s.accumulator + real_dt) = min (s.accumulator + real_dt) (s.dt * 5) := by
      split_ifs with h
      · exact (min_eq_right (le_of_lt h)).symm
      · exact (min_eq_left (not_lt.mp h)).symm
    have hlt : min (s.accumulator + real_dt) (s.dt * 5) < 6 * s.dt := by
      have : min (s.accumulator + real_dt) (s.dt * 5) ≤ s.dt * 5 := min_le_right _ _
      linarith
    obtain ⟨h1, h2, h3⟩ :=
      sim_fixed_loop_spec 6 (min (s.accumulator + real_dt) (s.dt * 5)) s.dt hdt
        (by push_cast; linarith)
    simp only [simulation_update, hp, hs]
    simp only [Bool.false_eq_true, false_and, not_false_iff, if_neg, if_false]
    rw [hclamp] at *
    norm_num
    exact ⟨h1, h2, h3⟩

/-- Witness driver state for C7: dt = 1, accumulator 0, not paused, no
step pending. -/
def simDriver0 : SimDriver :=
  { paused := false, step_once := false, accumulator := 0, dt := 1, tick_count := 0 }

/-- Witness for C7: the theorem applied at simDriver0 with real time 5/2. -/
theorem simulation_update_spec_witness :
    (0 : ℚ) < simDriver0.dt ∧
    (simulation_update simDriver0 (5 / 2)).1.accumulator =
      min (simDriver0.accumulator + 5 / 2) (simDriver0.dt * 5) -
        (simulation_update simDriver0 (5 / 2)).2 * simDriver0.dt ∧
    (simulation_update simDriver0 (5 / 2)).1.accumulator < simDriver0.dt ∧
    (simulation_update simDriver0 (5 / 2)).1.tick_count =
      simDriver0.tick_count + (simulation_update simDriver0 (5 / 2)).2 := by
  have h := simulation_update_spec simDriver0 (5 / 2) (by norm_num [simDriver0])
  obtain ⟨h1, h2, h3, _, _, h6⟩ := h.2.2 rfl rfl
  exact ⟨by norm_num [simDriver0], h1, h2, h6⟩

/- ============================================================
   C10: simulation_rand_range on an inverted range
   ============================================================ -/

/-- Claim C10: for min greater than max, simulation_rand_range returns min
and does not advance the tick RNG state (the guard returns before any
simulation_rand draw). -/
theorem simulation_rand_range_degenerate (s : SimRng) (lo hi : ℤ) (h : hi < lo) :
    simulation_rand_range s lo hi = (lo, s) := by
  simp [simulation_rand_range, le_of_lt h]

/-- Witness for C10 at a concrete state and range 5 to 3. -/
theorem simulation_rand_range_degenerate_witness :
    (3 : ℤ) < 5 ∧ simulation_rand_range ⟨12345⟩ 5 3 = (5, ⟨12345⟩) :=
  ⟨by norm_num, simulation_rand_range_degenerate ⟨12345⟩ 5 3 (by norm_num)⟩

/- ============================================================
   Helper lemmas: world operations and the fields they touch
   ============================================================ -/

/-- Two worlds that agree on every field except the chunk_active_next
mask. -/
def cellsEq (a b : World) : Prop :=
  a.width = b.width ∧ a.height = b.height ∧ a.mat = b.mat ∧ a.flags = b.flags ∧
  a.color_seed = b.color_seed ∧ a.temp = b.temp ∧ a.temp_next = b.temp_next ∧
  a.vel_x = b.vel_x ∧ a.vel_y = b.vel_y ∧ a.lifetime = b.lifetime ∧
  a.chunk_active = b.chunk_active ∧ a.cells_updated = b.cells_updated

lemma cellsEq_refl (a : World) : cellsEq a a :=
  ⟨rfl, rfl, rfl, rfl, rfl, rfl, rfl, rfl, rfl, rfl, rfl, rfl⟩

lemma cellsEq_trans {a b c : World} (h1 : cellsEq a b) (h2 : cellsEq b c) : cellsEq a c := by
  unfold cellsEq at *
  obtain ⟨e1, e2, e3, e4, e5, e6, e7, e8, e9, e10, e11, e12⟩ := h1
  obtain ⟨f1, f2, f3, f4, f5, f6, f7, f8, f9, f10, f11, f12⟩ := h2
  exact ⟨e1.trans f1, e2.trans f2, e3.trans f3, e4.trans f4, e5.trans f5, e6.trans f6,
    e7.trans f7, e8.trans f8, e9.trans f9, e10.trans f10, e11.trans f11, e12.trans f12⟩

lemma world_activate_chunk_cellsEq (w : World) (cx cy : ℤ) :
    cellsEq (world_activate_chunk w cx cy) w := by
  unfold world_activate_chunk cellsEq
  split_ifs <;> exact ⟨rfl, rfl, rfl, rfl, rfl, rfl, rfl, rfl, rfl, rfl, rfl, rfl⟩

lemma world_activate_chunk_at_cellsEq (w : World) (x y : ℤ) :
    cellsEq (world_activate_chunk_at w x y) w := by
  unfold world_activate_chunk_at
  split_ifs with h
  · exact cellsEq_trans (world_activate_chunk_cellsEq _ _ _)
      (cellsEq_trans (world_activate_chunk_cellsEq _ _ _)
        (cellsEq_trans (world_activate_chunk_cellsEq _ _ _)
          (cellsEq_trans (world_activate_chunk_cellsEq _ _ _)
            (cellsEq_trans (world_activate_chunk_cellsEq _ _ _)
              (cellsEq_trans (world_activate_chunk_cellsEq _ _ _)
                (world_activate_chunk_cellsEq _ _ _))))))
  · exact cellsEq_refl w

/-- CHUNKS_X is stable under chunk activation since the width is. -/
lemma world_activate_chunk_dims (w : World) (cx cy : ℤ) :
    (world_activate_chunk w cx cy).width = w.width ∧
    (world_activate_chunk w cx cy).height = w.height := by
  unfold world_activate_chunk
  split_ifs <;> exact ⟨rfl, rfl⟩

/-- One chunk activation, read back pointwise on the next mask. -/
lemma world_activate_chunk_mask (w : World) (cx cy a b : ℤ) :
    (world_activate_chunk w cx cy).chunk_active_next (a, b) = true ↔
      (w.chunk_active_next (a, b) = true ∨
        ((a, b) = (cx, cy) ∧ 0 ≤ cx ∧ cx < CHUNKS_X w ∧ 0 ≤ cy ∧ cy < CHUNKS_Y w)) := by
  unfold world_activate_chunk
  split_ifs with h
  · constructor
    · intro hm
      exact Or.inl hm
    · rintro (hm | ⟨_, h1, h2, h3, h4⟩)
      · exact hm
      · exfalso
        rcases h with h | h | h | h <;> omega
  · simp only [Function.update_apply]
    constructor
    · intro hm
      split_ifs at hm with he
      · exact Or.inr ⟨he, by omega, by omega, by omega, by omega⟩
      · exact Or.inl hm
    · rintro (hm | ⟨he, _⟩)
      · split_ifs <;> simp [hm]
      · simp [he]

/- ============================================================
   C1: chunk activation neighborhood
   ============================================================ -/

/-- Neighbor chunk offsets activated by world_activate_chunk_at, in source
order: the own chunk, left, right, up, down, down-left, down-right.  The
up-left and up-right diagonal offsets are absent. -/
def chunkNeighborhood7 : List (ℤ × ℤ) :=
  [(0, 0), (-1, 0), (1, 0), (0, -1), (0, 1), (-1, 1), (1, 1)]

/-- CHUNKS_X is unchanged by a chunk activation. -/
lemma CHUNKS_X_activate (w : World) (cx cy : ℤ) :
    CHUNKS_X (world_activate_chunk w cx cy) = CHUNKS_X w := by
  unfold CHUNKS_X world_activate_chunk
  split_ifs <;> rfl

/-- CHUNKS_Y is unchanged by a chunk activation. -/
lemma CHUNKS_Y_activate (w : World) (cx cy : ℤ) :
    CHUNKS_Y (world_activate_chunk w cx cy) = CHUNKS_Y w := by
  unfold CHUNKS_Y world_activate_chunk
  split_ifs <;> rfl

/-- Pointwise description of the chunk_active_next mask written by
world_activate_chunk_at for an in-bounds cell. -/
lemma world_activate_chunk_at_mask_iff (w : World) (x y : ℤ) (h : IN_BOUNDS w x y)
    (cx cy : ℤ) :
    (world_activate_chunk_at w x y).chunk_active_next (cx, cy) = true ↔
      (w.chunk_active_next (cx, cy) = true ∨
        (0 ≤ cx ∧ cx < CHUNKS_X w ∧ 0 ≤ cy ∧ cy < CHUNKS_Y w ∧
          (cx - x / CHUNK_SIZE, cy - y / CHUNK_SIZE) ∈ chunkNeighborhood7)) := by
  unfold world_activate_chunk_at
  rw [if_pos h]
  simp only [world_activate_chunk_mask, CHUNKS_X_activate, CHUNKS_Y_activate,
    chunkNeighborhood7, List.mem_cons, List.not_mem_nil, or_false, Prod.mk.injEq]
  constructor
  · rintro (((((((hm | he) | he) | he) | he) | he) | he) | he)
    · exact Or.inl hm
    all_goals exact Or.inr (by omega)
  · rintro (hm | hr)
    · exact Or.inl (Or.inl (Or.inl (Or.inl (Or.inl (Or.inl (Or.inl hm))))))
    · obtain ⟨b1, b2, b3, b4, hmem⟩ := hr
      rcases hmem with he | he | he | he | he | he | he
      · exact Or.inl (Or.inl (Or.inl (Or.inl (Or.inl (Or.inl (Or.inr (by omega)))))))
      · exact Or.inl (Or.inl (Or.inl (Or.inl (Or.inl (Or.inr (by omega))))))
      · exact Or.inl (Or.inl (Or.inl (Or.inl (Or.inr (by omega)))))
      · exact Or.inl (Or.inl (Or.inl (Or.inr (by omega))))
      · exact Or.inl (Or.inl (Or.inr (by omega)))
      · exact Or.inl (Or.inr (by omega))
      · exact Or.inr (by omega)

/-- Claim C1 (amended): activating an in-bounds cell marks, in the
chunk_active_next mask, exactly the in-range chunks among the cell chunk
and its left, right, up, down, down-left and down-right neighbors; the
up-left and up-right diagonal chunks of the 3 by 3 block are not marked.
Previously marked chunks stay marked, and the mask written by
world_set_mat satisfies the same description. -/
theorem world_activate_chunk_at_spec (w : World) (x y : ℤ) (m : MaterialID)
    (h : IN_BOUNDS w x y) (cx cy : ℤ) :
    ((world_activate_chunk_at w x y).chunk_active_next (cx, cy) = true ↔
      (w.chunk_active_next (cx, cy) = true ∨
        (0 ≤ cx ∧ cx < CHUNKS_X w ∧ 0 ≤ cy ∧ cy < CHUNKS_Y w ∧
          (cx - x / CHUNK_SIZE, cy - y / CHUNK_SIZE) ∈ chunkNeighborhood7))) ∧
    ((world_set_mat w x y m).chunk_active_next (cx, cy) = true ↔
      (w.chunk_active_next (cx, cy) = true ∨
        (0 ≤ cx ∧ cx < CHUNKS_X w ∧ 0 ≤ cy ∧ cy < CHUNKS_Y w ∧
          (cx - x / CHUNK_SIZE, cy - y / CHUNK_SIZE) ∈ chunkNeighborhood7))) := by
  refine ⟨world_activate_chunk_at_mask_iff w x y h cx cy, ?_⟩
  unfold world_set_mat
  rw [if_pos h]
  have h2 := world_activate_chunk_at_mask_iff
    { w with
      mat := Function.update w.mat (x, y) m
      vel_x := Function.update w.vel_x (x, y) 0
      vel_y := Function.update w.vel_y (x, y) 0 } x y h cx cy
  simpa [CHUNKS_X, CHUNKS_Y] using h2

/-- Concrete 64 by 64 world with clear masks, used to exercise the chunk
activation. -/
def maskWorld : World :=
  { width := 64, height := 64
    mat := fun _ => MAT_EMPTY
    flags := fun _ => 0
    color_seed := fun _ => 0
    temp := fun _ => 20
    temp_next := fun _ => 20
    vel_x := fun _ => 0
    vel_y := fun _ => 0
    lifetime := fun _ => 0
    chunk_active := fun _ => false
    chunk_active_next := fun _ => false
    cells_updated := 0 }

/-- Witness for C1: activating cell (32, 32) of the 64 by 64 world marks
chunk (0, 1), the down-left neighbor of chunk (1, 1). -/
theorem world_activate_chunk_at_spec_witness :
    IN_BOUNDS maskWorld 32 32 ∧
    ((world_activate_chunk_at maskWorld 32 32).chunk_active_next (0, 1) = true ↔
      (maskWorld.chunk_active_next (0, 1) = true ∨
        (0 ≤ (0 : ℤ) ∧ (0 : ℤ) < CHUNKS_X maskWorld ∧ 0 ≤ (1 : ℤ) ∧
          (1 : ℤ) < CHUNKS_Y maskWorld ∧
          ((0 : ℤ) - 32 / CHUNK_SIZE, (1 : ℤ) - 32 / CHUNK_SIZE) ∈ chunkNeighborhood7))) :=
  ⟨by constructor <;> norm_num [maskWorld],
    (world_activate_chunk_at_spec maskWorld 32 32 MAT_EMPTY
      (by constructor <;> norm_num [maskWorld]) 0 1).1⟩

/-- Counterexample for C1 as frozen: the up-left diagonal chunk (0, 0) of
chunk (1, 1) lies inside the 2 by 2 chunk grid and inside the 3 by 3 block
around chunk (1, 1), yet activating cell (32, 32) leaves it unmarked. -/
theorem world_activate_chunk_at_not_three_by_three :
    (32 : ℤ) / CHUNK_SIZE = 1 ∧
    CHUNKS_X maskWorld = 2 ∧ CHUNKS_Y maskWorld = 2 ∧
    (world_activate_chunk_at maskWorld 32 32).chunk_active_next (0, 0) = false := by
  refine ⟨by decide, by decide, by decide, ?_⟩
  decide

/- ============================================================
   C9: world_swap_cells frame conditions
   ============================================================ -/

/-- Claim C9: for two in-bounds cells, world_swap_cells exchanges exactly
the material, color seed, both velocity components and lifetime of the two
cells; the flag word and both temperature buffers of every cell, and every
field of every other cell, are unchanged. -/
theorem world_swap_cells_spec (w : World) (x1 y1 x2 y2 : ℤ)
    (h1 : IN_BOUNDS w x1 y1) (h2 : IN_BOUNDS w x2 y2) :
    (world_swap_cells w x1 y1 x2 y2).mat (x1, y1) = w.mat (x2, y2) ∧
    (world_swap_cells w x1 y1 x2 y2).mat (x2, y2) = w.mat (x1, y1) ∧
    (world_swap_cells w x1 y1 x2 y2).color_seed (x1, y1) = w.color_seed (x2, y2) ∧
    (world_swap_cells w x1 y1 x2 y2).color_seed (x2, y2) = w.color_seed (x1, y1) ∧
    (world_swap_cells w x1 y1 x2 y2).vel_x (x1, y1) = w.vel_x (x2, y2) ∧
    (world_swap_cells w x1 y1 x2 y2).vel_x (x2, y2) = w.vel_x (x1, y1) ∧
    (world_swap_cells w x1 y1 x2 y2).vel_y (x1, y1) = w.vel_y (x2, y2) ∧
    (world_swap_cells w x1 y1 x2 y2).vel_y (x2, y2) = w.vel_y (x1, y1) ∧
    (world_swap_cells w x1 y1 x2 y2).lifetime (x1, y1) = w.lifetime (x2, y2) ∧
    (world_swap_cells w x1 y1 x2 y2).lifetime (x2, y2) = w.lifetime (x1, y1) ∧
    (world_swap_cells w x1 y1 x2 y2).flags = w.flags ∧
    (world_swap_cells w x1 y1 x2 y2).temp = w.temp ∧
    (world_swap_cells w x1 y1 x2 y2).temp_next = w.temp_next ∧
    ∀ q : ℤ × ℤ, q ≠ (x1, y1) → q ≠ (x2, y2) →
      (world_swap_cells w x1 y1 x2 y2).mat q = w.mat q ∧
      (world_swap_cells w x1 y1 x2 y2).color_seed q = w.color_seed q ∧
      (world_swap_cells w x1 y1 x2 y2).vel_x q = w.vel_x q ∧
      (world_swap_cells w x1 y1 x2 y2).vel_y q = w.vel_y q ∧
      (world_swap_cells w x1 y1 x2 y2).lifetime q = w.lifetime q := by
  have hno : ¬ (¬ IN_BOUNDS w x1 y1 ∨ ¬ IN_BOUNDS w x2 y2) := by
    push_neg
    exact ⟨h1, h2⟩
  obtain ⟨e1, e2, e3, e4, e5, e6, e7, e8, e9, e10, e11, e12⟩ :=
    cellsEq_trans
      (world_activate_chunk_at_cellsEq
        (world_activate_chunk_at (swapFields w (x1, y1) (x2, y2)) x1 y1) x2 y2)
      (world_activate_chunk_at_cellsEq (swapFields w (x1, y1) (x2, y2)) x1 y1)
  unfold world_swap_cells
  rw [if_neg hno]
  rw [e3, e4, e5, e6, e7, e8, e9, e10]
  simp only [swapFields, swapAt, Function.update_apply]
  by_cases hp : ((x1 : ℤ), (y1 : ℤ)) = ((x2 : ℤ), (y2 : ℤ)) <;>
  refine ⟨?_, ?_, ?_, ?_, ?_, ?_, ?_, ?_, ?_, ?_, ?_, ?_, ?_,
    fun q hq1 hq2 => ⟨?_, ?_, ?_, ?_, ?_⟩⟩ <;>
  first
    | rfl
    | (simp [hp]; done)
    | (simp [hq1, hq2]; done)

/-- Concrete 2 by 1 world holding distinct field values in its two cells,
used to exercise world_swap_cells. -/
def swapWorld : World :=
  { width := 2, height := 1
    mat := fun p => if p = (0, 0) then MAT_SAND else MAT_WATER
    flags := fun p => if p = (0, 0) then 5 else 0
    color_seed := fun p => if p = (0, 0) then 7 else 9
    temp := fun p => if p = (0, 0) then 25 else 30
    temp_next := fun p => if p = (0, 0) then 26 else 31
    vel_x := fun p => if p = (0, 0) then 11 else -4
    vel_y := fun p => if p = (0, 0) then 3 else 8
    lifetime := fun p => if p = (0, 0) then 100 else 50
    chunk_active := fun _ => true
    chunk_active_next := fun _ => false
    cells_updated := 0 }

/-- Witness for C9: the swap theorem applied to the two cells of
swapWorld. -/
theorem world_swap_cells_spec_witness :
    IN_BOUNDS swapWorld 0 0 ∧ IN_BOUNDS swapWorld 1 0 ∧
    (world_swap_cells swapWorld 0 0 1 0).mat (0, 0) = swapWorld.mat (1, 0) ∧
    (world_swap_cells swapWorld 0 0 1 0).mat (1, 0) = swapWorld.mat (0, 0) ∧
    (world_swap_cells swapWorld 0 0 1 0).flags = swapWorld.flags ∧
    (world_swap_cells swapWorld 0 0 1 0).temp = swapWorld.temp ∧
    (world_swap_cells swapWorld 0 0 1 0).temp_next = swapWorld.temp_next := by
  have h := world_swap_cells_spec swapWorld 0 0 1 0
    (by constructor <;> norm_num [swapWorld]) (by constructor <;> norm_num [swapWorld])
  exact ⟨by constructor <;> norm_num [swapWorld], by constructor <;> norm_num [swapWorld],
    h.1, h.2.1, h.2.2.2.2.2.2.2.2.2.2.1, h.2.2.2.2.2.2.2.2.2.2.2.1, h.2.2.2.2.2.2.2.2.2.2.2.2.1⟩

/- ============================================================
   C2: traversal order of fire_update (fire.c)
   ============================================================ -/

/-- One grid row visited left to right, the inner loop of fire_update. -/
def rowLeftRight (width y : ℕ) : List (ℕ × ℕ) :=
  (List.range width).map (fun x => (x, y))

/-- Cell visit order of fire_update in fire.c: the y loop runs from
GRID_HEIGHT - 1 down to 0 and the x loop always runs from 0 up to
GRID_WIDTH - 1.  The function consumes no RNG draw to pick a horizontal
direction; the order is a fixed function of the grid dimensions. -/
def fireVisitOrder (width height : ℕ) : List (ℕ × ℕ) :=
  (List.range height).reverse.flatMap (rowLeftRight width)

/-- Modelled from the spec for comparison: the visit order the claim
describes, bottom-up with the horizontal direction selected by one RNG bit
(true scans left to right, false right to left). -/
def claimedFireVisitOrder (ltr : Bool) (width height : ℕ) : List (ℕ × ℕ) :=
  (List.range height).reverse.flatMap (fun y =>
    if ltr then (List.range width).map (fun x => (x, y))
    else (List.range width).reverse.map (fun x => (x, y)))

/-- Cells of the visit order whose chunk is active, i.e. the cells on
which fire_update invokes fire_update_cell (the chunk_active mask is only
read, never written, during a stage, so the initial mask decides). -/
def fireProcessList (width height : ℕ) (w : World) : List (ℕ × ℕ) :=
  (fireVisitOrder width height).filter
    (fun p => world_is_chunk_active w ((p.1 : ℤ) / CHUNK_SIZE) ((p.2 : ℤ) / CHUNK_SIZE))

lemma fireVisitOrder_nodup (width height : ℕ) : (fireVisitOrder width height).Nodup := by
  unfold fireVisitOrder rowLeftRight
  rw [List.nodup_flatMap]
  constructor
  · intro y _
    exact (List.nodup_range _).map (fun a b hab => by
      simpa using congrArg Prod.fst hab)
  · have hdisj : ∀ a b : ℕ, a ≠ b →
        ((List.range width).map (fun x => (x, a))).Disjoint
          ((List.range width).map (fun x => (x, b))) := by
      intro a b hab p hpa hpb
      simp only [List.mem_map] at hpa hpb
      obtain ⟨xa, _, rfl⟩ := hpa
      obtain ⟨xb, _, heq⟩ := hpb
      have := congrArg Prod.snd heq
      simp at this
      omega
    have hnd : (List.range height).reverse.Nodup :=
      List.nodup_reverse.mpr (List.nodup_range _)
    exact List.Pairwise.imp (fun hab => hdisj _ _ hab) hnd

lemma fireVisitOrder_mem (width height x y : ℕ) :
    (x, y) ∈ fireVisitOrder width height ↔ x < width ∧ y < height := by
  unfold fireVisitOrder rowLeftRight
  simp only [List.mem_flatMap, List.mem_reverse, List.mem_range, List.mem_map]
  constructor
  · rintro ⟨y2, hy2, x2, hx2, heq⟩
    have h1 := congrArg Prod.fst heq
    have h2 := congrArg Prod.snd heq
    simp at h1 h2
    omega
  · rintro ⟨hx, hy⟩
    exact ⟨y, hy, x, hx, rfl⟩

/-- Claim C2 (amended): fire_update traverses the grid bottom-up but with
a fixed left-to-right horizontal direction; no RNG bit is consumed for the
direction (fireVisitOrder does not depend on the random stream), so the
order equals the claimed order only in its left-to-right case.  Every
in-bounds cell appears exactly once in the visit order, and the cells
passed to fire_update_cell are exactly the visited cells whose chunk is
active, each exactly once. -/
theorem fire_update_visit_order (width height : ℕ) (w : World) :
    fireVisitOrder width height = claimedFireVisitOrder true width height ∧
    (∀ x y : ℕ, (x, y) ∈ fireVisitOrder width height ↔ x < width ∧ y < height) ∧
    (fireVisitOrder width height).Nodup ∧
    (∀ x y : ℕ, (x, y) ∈ fireProcessList width height w ↔
      (x < width ∧ y < height ∧
        world_is_chunk_active w ((x : ℤ) / CHUNK_SIZE) ((y : ℤ) / CHUNK_SIZE) = true)) ∧
    (fireProcessList width height w).Nodup := by
  refine ⟨?_, ?_, ?_, ?_, ?_⟩
  · unfold fireVisitOrder claimedFireVisitOrder rowLeftRight
    simp
  · intro x y
    exact fireVisitOrder_mem width height x y
  · exact fireVisitOrder_nodup width height
  · intro x y
    unfold fireProcessList
    rw [List.mem_filter]
    rw [fireVisitOrder_mem]
    simp only [decide_eq_true_eq]
    tauto
  · exact (fireVisitOrder_nodup width height).filter _

/-- Counterexample for C2 as frozen: on a 2 by 1 grid the claimed
right-to-left order (RNG bit false) visits (1, 0) first, but fire_update
always visits (0, 0) first; the code draws no direction bit at all. -/
theorem fire_update_order_not_randomized :
    fireVisitOrder 2 1 = [(0, 0), (1, 0)] ∧
    claimedFireVisitOrder false 2 1 = [(1, 0), (0, 0)] ∧
    fireVisitOrder 2 1 ≠ claimedFireVisitOrder false 2 1 := by
  refine ⟨by decide, by decide, by decide⟩

/- ============================================================
   Fire and gas stage embeddings (fire.c)
   ============================================================ -/

def FIRE_RISE_CHANCE : ℚ := 6 / 10

def FIRE_DIE_CHANCE : ℚ := 2 / 100

def FIRE_SPREAD_CHANCE : ℚ := 3 / 100

def FIRE_SMOKE_CHANCE : ℚ := 15 / 100

def FIRE_MAX_LIFETIME : ℕ := 120

def SMOKE_DISSIPATE_CHANCE : ℚ := 6 / 1000

def SMOKE_RISE_CHANCE : ℚ := 85 / 100

def SMOKE_SPREAD_CHANCE : ℚ := 3 / 10

def STEAM_RISE_CHANCE : ℚ := 9 / 10

def STEAM_CONDENSE_CHANCE : ℚ := 1 / 100

/-- material_is_flammable from fire.c: only wood burns. -/
def material_is_flammable (mat : MaterialID) : Bool := mat = MAT_WOOD

/-- gas_can_move_to from fire.c: in bounds and empty. -/
def gas_can_move_to (w : World) (x y : ℤ) : Bool :=
  if IN_BOUNDS w x y then material_state (world_get_mat w x y) = .empty else false

/-- gas_can_displace_fluid from fire.c: in bounds and fluid. -/
def gas_can_displace_fluid (w : World) (x y : ℤ) : Bool :=
  if IN_BOUNDS w x y then material_state (world_get_mat w x y) = .fluid else false

/-- fire_try_ignite from fire.c. -/
def fire_try_ignite (w : World) (x y : ℤ) : World :=
  if IN_BOUNDS w x y then
    if material_is_flammable (world_get_mat w x y) then
      world_add_flag (world_set_mat w x y MAT_FIRE) x y FLAG_BURNING
    else w
  else w

/-- Movement commit shared by the fire and gas movement blocks: swap the
cells, mark both Updated and count the update. -/
def cell_commit_move (w : World) (x y nx ny : ℤ) : World :=
  let w1 := world_swap_cells w x y nx ny
  let w2 := world_add_flag w1 nx ny FLAG_UPDATED
  let w3 := world_add_flag w2 x y FLAG_UPDATED
  { w3 with cells_updated := w3.cells_updated + 1 }

/-- Saturating lifetime increment used at the top of the fire and gas cell
updates: increment only below 255. -/
def bump_lifetime (w : World) (p : ℤ × ℤ) : World :=
  if w.lifetime p < 255 then
    { w with lifetime := Function.update w.lifetime p (w.lifetime p + 1) }
  else w

/-- Neighbor offsets of the fire spread loop, in the order of the dx and
dy arrays of fire.c. -/
def FIRE_NEIGHBOR8 : List (ℤ × ℤ) :=
  [(-1, -1), (0, -1), (1, -1), (-1, 0), (1, 0), (-1, 1), (0, 1), (1, 1)]

/-- One iteration of the fire spread loop: a draw is always consumed, and
a flammable in-bounds neighbor is ignited when the draw passes. -/
def fire_spread_step (rs : ℕ → ℕ) (x y : ℤ) (acc : World × ℕ) (d : ℤ × ℤ) : World × ℕ :=
  let w := acc.1
  let k := acc.2
  if randf (rs k) < FIRE_SPREAD_CHANCE then
    let nx := x + d.1
    let ny := y + d.2
    if IN_BOUNDS w nx ny then
      if material_is_flammable (world_get_mat w nx ny) then (fire_try_ignite w nx ny, k + 1)
      else (w, k + 1)
    else (w, k + 1)
  else (w, k + 1)

/-- Fire movement block of fire_update_cell, entered after the rise draw
passes: straight up, then diagonal up with a coin tie-break, then
horizontal with a coin tie-break.  Returns the world, the draw counter and
whether a move was committed. -/
def fire_move (rs : ℕ → ℕ) (k : ℕ) (w : World) (x y : ℤ) : World × ℕ × Bool :=
  if gas_can_move_to w x (y - 1) then (cell_commit_move w x y x (y - 1), k, true)
  else
    let can_ul := gas_can_move_to w (x - 1) (y - 1)
    let can_ur := gas_can_move_to w (x + 1) (y - 1)
    if can_ul ∧ can_ur then
      let nx := if randf (rs k) < 1 / 2 then x - 1 else x + 1
      (cell_commit_move w x y nx (y - 1), k + 1, true)
    else if can_ul then (cell_commit_move w x y (x - 1) (y - 1), k, true)
    else if can_ur then (cell_commit_move w x y (x + 1) (y - 1), k, true)
    else
      let can_l := gas_can_move_to w (x - 1) y
      let can_r := gas_can_move_to w (x + 1) y
      if can_l ∧ can_r then
        let nx := if randf (rs k) < 1 / 2 then x - 1 else x + 1
        (cell_commit_move w x y nx y, k + 1, true)
      else if can_l then (cell_commit_move w x y (x - 1) y, k, true)
      else if can_r then (cell_commit_move w x y (x + 1) y, k, true)
      else (w, k, false)

/-- Non-death continuation of fire_update_cell: smoke production, spread
to the eight neighbors, and the rise movement; if no movement occurred the
cell is marked Updated. -/
def fire_update_cell_live (rs : ℕ → ℕ) (k : ℕ) (w : World) (x y : ℤ) : World × ℕ :=
  -- smoke production: the draw is always consumed
  let smoke :=
    if randf (rs k) < FIRE_SMOKE_CHANCE then
      if IN_BOUNDS w x (y - 1) then
        if material_is_empty (world_get_mat w x (y - 1)) then
          world_add_flag (world_set_mat w x (y - 1) MAT_SMOKE) x (y - 1) FLAG_UPDATED
        else w
      else w
    else w
  -- spread to the eight neighbors, one draw each
  let spread := FIRE_NEIGHBOR8.foldl (fire_spread_step rs x y) (smoke, k + 1)
  -- rise movement behind one gate draw
  if randf (rs spread.2) < FIRE_RISE_CHANCE then
    let mv := fire_move rs (spread.2 + 1) spread.1 x y
    if mv.2.2 then (mv.1, mv.2.1)
    else (world_add_flag mv.1 x y FLAG_UPDATED, mv.2.1)
  else (world_add_flag spread.1 x y FLAG_UPDATED, spread.2 + 1)

/-- Death branch of fire_update_cell: the second randf draw r2 picks the
product (ash below 0.3, smoke below 0.8, else empty), then the lifetime is
zeroed, Burning removed, Updated added and the update counted. -/
def fire_death_result (r2 : ℚ) (w1 : World) (x y : ℤ) : World :=
  let p : ℤ × ℤ := (x, y)
  let w2 :=
    if r2 < 3 / 10 then world_set_mat w1 x y MAT_ASH
    else if r2 < 8 / 10 then world_set_mat w1 x y MAT_SMOKE
    else world_set_mat w1 x y MAT_EMPTY
  let w3 := { w2 with lifetime := Function.update w2.lifetime p 0 }
  let w4 := world_remove_flag w3 x y FLAG_BURNING
  let w5 := world_add_flag w4 x y FLAG_UPDATED
  { w5 with cells_updated := w5.cells_updated + 1 }

/-- Branch taken by fire_update_cell, recorded for the statement of the
death claim; the world result is computed exactly as in the C source. -/
inductive FireOutcome where
  | skipped
  | died
  | continued
deriving DecidableEq, Repr

/-- fire_update_cell from fire.c: skip when Updated or not Fire, age the
cell, then the death check (one randf draw, or lifetime at least 120); on
death one further randf draw picks ash, smoke or empty, the lifetime is
zeroed, Burning cleared and Updated set.  Otherwise smoke production,
spread and rise run on the aged world. -/
def fire_update_cell (rs : ℕ → ℕ) (k : ℕ) (w : World) (x y : ℤ) :
    World × ℕ × FireOutcome :=
  if world_has_flag w x y FLAG_UPDATED = true then (w, k, .skipped)
  else if world_get_mat w x y ≠ MAT_FIRE then (w, k, .skipped)
  else
    let p : ℤ × ℤ := (x, y)
    let w1 := bump_lifetime w p
    if randf (rs k) < FIRE_DIE_CHANCE ∨ w1.lifetime p ≥ FIRE_MAX_LIFETIME then
      (fire_death_result (randf (rs (k + 1))) w1 x y, k + 2, .died)
    else
      let live := fire_update_cell_live rs (k + 1) w1 x y
      (live.1, live.2, .continued)

/-- Branch taken by gas_update_cell, recorded for the statement of the
condensation claim; the world result is computed exactly as in C. -/
inductive GasOutcome where
  | skipped
  | dissipated
  | condensed
  | continued
deriving DecidableEq, Repr

/-- Replacement branch shared by smoke dissipation and steam condensation
in gas_update_cell: write the replacement material, zero the lifetime,
mark Updated and count the update. -/
def gas_vanish_result (m : MaterialID) (w1 : World) (x y : ℤ) : World :=
  let p : ℤ × ℤ := (x, y)
  let w2 := world_set_mat w1 x y m
  let w3 := { w2 with lifetime := Function.update w2.lifetime p 0 }
  let w4 := world_add_flag w3 x y FLAG_UPDATED
  { w4 with cells_updated := w4.cells_updated + 1 }

/-- Movement part of gas_update_cell: the rise gate draw, then straight
up, diagonal up with a coin tie-break, the horizontal spread behind its
own gate draw, and the bubble through a fluid directly above. -/
def gas_update_cell_move (rs : ℕ → ℕ) (k : ℕ) (w : World) (x y : ℤ) (mat : MaterialID) :
    World × ℕ :=
  let rise_chance := if mat = MAT_STEAM then STEAM_RISE_CHANCE else SMOKE_RISE_CHANCE
  if randf (rs k) > rise_chance then (w, k + 1)
  else
    let k1 := k + 1
    if gas_can_move_to w x (y - 1) then (cell_commit_move w x y x (y - 1), k1)
    else
      let can_ul := gas_can_move_to w (x - 1) (y - 1)
      let can_ur := gas_can_move_to w (x + 1) (y - 1)
      if can_ul ∧ can_ur then
        let nx := if randf (rs k1) < 1 / 2 then x - 1 else x + 1
        (cell_commit_move w x y nx (y - 1), k1 + 1)
      else if can_ul then (cell_commit_move w x y (x - 1) (y - 1), k1)
      else if can_ur then (cell_commit_move w x y (x + 1) (y - 1), k1)
      else if randf (rs k1) < SMOKE_SPREAD_CHANCE then
        let can_l := gas_can_move_to w (x - 1) y
        let can_r := gas_can_move_to w (x + 1) y
        if can_l ∧ can_r then
          let nx := if randf (rs (k1 + 1)) < 1 / 2 then x - 1 else x + 1
          (cell_commit_move w x y nx y, k1 + 2)
        else if can_l then (cell_commit_move w x y (x - 1) y, k1 + 1)
        else if can_r then (cell_commit_move w x y (x + 1) y, k1 + 1)
        else if gas_can_displace_fluid w x (y - 1) then
          (cell_commit_move w x y x (y - 1), k1 + 1)
        else (w, k1 + 1)
      else if gas_can_displace_fluid w x (y - 1) then
        (cell_commit_move w x y x (y - 1), k1 + 1)
      else (w, k1 + 1)

/-- gas_update_cell from fire.c: skip when Updated, not a gas, or Fire;
smoke ages and may dissipate; steam ages and may condense to water below
80 degrees with chance STEAM_CONDENSE_CHANCE * (100 - temp) / 100; then
the movement block runs. -/
def gas_update_cell (rs : ℕ → ℕ) (k : ℕ) (w : World) (x y : ℤ) :
    World × ℕ × GasOutcome :=
  if world_has_flag w x y FLAG_UPDATED = true then (w, k, .skipped)
  else if material_state (world_get_mat w x y) ≠ .gas then (w, k, .skipped)
  else if world_get_mat w x y = MAT_FIRE then (w, k, .skipped)
  else
    let p : ℤ × ℤ := (x, y)
    let mat := world_get_mat w x y
    -- smoke dissipation
    if mat = MAT_SMOKE then
      let w1 := bump_lifetime w p
      let dissipate_chance := SMOKE_DISSIPATE_CHANCE * (1 + (w1.lifetime p : ℚ) / 100)
      if randf (rs k) < dissipate_chance then
        (gas_vanish_result MAT_EMPTY w1 x y, k + 1, .dissipated)
      else
        let mv := gas_update_cell_move rs (k + 1) w1 x y mat
        (mv.1, mv.2, .continued)
    else if mat = MAT_STEAM then
      let w1 := bump_lifetime w p
      if w1.temp p < 80 then
        if randf (rs k) < STEAM_CONDENSE_CHANCE * (100 - w1.temp p) / 100 then
          (gas_vanish_result MAT_WATER w1 x y, k + 1, .condensed)
        else
          let mv := gas_update_cell_move rs (k + 1) w1 x y mat
          (mv.1, mv.2, .continued)
      else
        let mv := gas_update_cell_move rs k w1 x y mat
        (mv.1, mv.2, .continued)
    else
      let mv := gas_update_cell_move rs k w x y mat
      (mv.1, mv.2, .continued)

/- ============================================================
   Field-effect lemmas for world operations
   ============================================================ -/

lemma world_set_mat_fields (w : World) (x y : ℤ) (m : MaterialID) :
    (world_set_mat w x y m).flags = w.flags ∧
    (world_set_mat w x y m).lifetime = w.lifetime ∧
    (world_set_mat w x y m).temp = w.temp ∧
    (world_set_mat w x y m).temp_next = w.temp_next ∧
    (world_set_mat w x y m).color_seed = w.color_seed ∧
    (world_set_mat w x y m).width = w.width ∧
    (world_set_mat w x y m).height = w.height ∧
    (world_set_mat w x y m).chunk_active = w.chunk_active ∧
    (world_set_mat w x y m).cells_updated = w.cells_updated ∧
    (world_set_mat w x y m).mat =
      (if IN_BOUNDS w x y then Function.update w.mat (x, y) m else w.mat) := by
  unfold world_set_mat
  split_ifs with h
  · obtain ⟨e1, e2, e3, e4, e5, e6, e7, e8, e9, e10, e11, e12⟩ :=
      world_activate_chunk_at_cellsEq
        { w with
          mat := Function.update w.mat (x, y) m
          vel_x := Function.update w.vel_x (x, y) 0
          vel_y := Function.update w.vel_y (x, y) 0 } x y
    exact ⟨e4, e10, e6, e7, e5, e1, e2, e11, e12, e3⟩
  · exact ⟨rfl, rfl, rfl, rfl, rfl, rfl, rfl, rfl, rfl, rfl⟩

lemma bump_lifetime_fields (w : World) (p : ℤ × ℤ) :
    (bump_lifetime w p).flags = w.flags ∧
    (bump_lifetime w p).mat = w.mat ∧
    (bump_lifetime w p).temp = w.temp ∧
    (bump_lifetime w p).temp_next = w.temp_next ∧
    (bump_lifetime w p).width = w.width ∧
    (bump_lifetime w p).height = w.height ∧
    (bump_lifetime w p).lifetime p =
      (if w.lifetime p < 255 then w.lifetime p + 1 else w.lifetime p) := by
  unfold bump_lifetime
  split_ifs with h
  · exact ⟨rfl, rfl, rfl, rfl, rfl, rfl, by simp⟩
  · exact ⟨rfl, rfl, rfl, rfl, rfl, rfl, rfl⟩

lemma world_add_flag_fields (w : World) (x y : ℤ) (flag : ℕ) :
    (world_add_flag w x y flag).mat = w.mat ∧
    (world_add_flag w x y flag).lifetime = w.lifetime ∧
    (world_add_flag w x y flag).width = w.width ∧
    (world_add_flag w x y flag).height = w.height ∧
    (world_add_flag w x y flag).flags =
      (if IN_BOUNDS w x y then
        Function.update w.flags (x, y) (w.flags (x, y) ||| flag) else w.flags) := by
  unfold world_add_flag
  split_ifs with h <;> exact ⟨rfl, rfl, rfl, rfl, rfl⟩

lemma world_remove_flag_fields (w : World) (x y : ℤ) (flag : ℕ) :
    (world_remove_flag w x y flag).mat = w.mat ∧
    (world_remove_flag w x y flag).lifetime = w.lifetime ∧
    (world_remove_flag w x y flag).width = w.width ∧
    (world_remove_flag w x y flag).height = w.height ∧
    (world_remove_flag w x y flag).flags =
      (if IN_BOUNDS w x y then
        Function.update w.flags (x, y) (w.flags (x, y) &&& (flag ^^^ 65535))
       else w.flags) := by
  unfold world_remove_flag
  split_ifs with h <;> exact ⟨rfl, rfl, rfl, rfl, rfl⟩

/- ============================================================
   Bit lemmas for the flag words
   ============================================================ -/

lemma nat_and_pow_eq_zero_iff (f i : ℕ) : f &&& 2 ^ i = 0 ↔ f.testBit i = false := by
  rw [Nat.and_two_pow]
  rcases h : f.testBit i <;> simp [h]

lemma death_flags_burning (f : ℕ) : ((f &&& (4 ^^^ 65535)) ||| 1) &&& 4 = 0 := by
  have h4 : (4 : ℕ) = 2 ^ 2 := by norm_num
  rw [h4, nat_and_pow_eq_zero_iff]
  rw [Nat.testBit_or, Nat.testBit_and]
  have h1 : ((2 ^ 2 : ℕ) ^^^ 65535).testBit 2 = false := by decide
  have h2 : (1 : ℕ).testBit 2 = false := by decide
  rw [h1, h2]
  simp

lemma or_one_updated (f : ℕ) : (f ||| 1) &&& 1 ≠ 0 := by
  have h1 : (1 : ℕ) = 2 ^ 0 := by norm_num
  intro hc
  rw [h1, nat_and_pow_eq_zero_iff] at hc
  rw [Nat.testBit_or] at hc
  have h2 : (2 ^ 0 : ℕ).testBit 0 = true := by decide
  rw [h2] at hc
  simp at hc

lemma IN_BOUNDS_of_dims {w1 w2 : World} (hw : w1.width = w2.width)
    (hh : w1.height = w2.height) {x y : ℤ} (h : IN_BOUNDS w2 x y) : IN_BOUNDS w1 x y :=
  ⟨h.1, hw ▸ h.2.1, h.2.2.1, hh ▸ h.2.2.2⟩

lemma get_mat_ne_empty_in_bounds {w : World} {x y : ℤ}
    (h : world_get_mat w x y ≠ MAT_EMPTY) : IN_BOUNDS w x y := by
  by_contra hc
  rw [world_get_mat, if_neg hc] at h
  exact h rfl

/-- Death branch of fire_update_cell, evaluated: the product of the r2
draw lands in the cell, the lifetime is zeroed, Burning is cleared and
Updated is set. -/
lemma fire_death_result_spec (r2 : ℚ) (w1 : World) (x y : ℤ) (hin : IN_BOUNDS w1 x y) :
    (fire_death_result r2 w1 x y).mat (x, y) =
      (if r2 < 3 / 10 then MAT_ASH else if r2 < 8 / 10 then MAT_SMOKE else MAT_EMPTY) ∧
    (fire_death_result r2 w1 x y).lifetime (x, y) = 0 ∧
    world_has_flag (fire_death_result r2 w1 x y) x y FLAG_BURNING = false ∧
    world_has_flag (fire_death_result r2 w1 x y) x y FLAG_UPDATED = true := by
  have hw2 : ∀ m : MaterialID,
      (world_set_mat w1 x y m).mat (x, y) = m ∧
      (world_set_mat w1 x y m).flags = w1.flags ∧
      (world_set_mat w1 x y m).width = w1.width ∧
      (world_set_mat w1 x y m).height = w1.height := by
    intro m
    obtain ⟨e1, _, _, _, _, e6, e7, _, _, e10⟩ := world_set_mat_fields w1 x y m
    refine ⟨?_, e1, e6, e7⟩
    rw [e10, if_pos hin]
    simp
  rcases h3 : (if r2 < 3 / 10 then world_set_mat w1 x y MAT_ASH
      else if r2 < 8 / 10 then world_set_mat w1 x y MAT_SMOKE
      else world_set_mat w1 x y MAT_EMPTY) with w2
  have hmat2 : w2.mat (x, y) =
      (if r2 < 3 / 10 then MAT_ASH else if r2 < 8 / 10 then MAT_SMOKE else MAT_EMPTY) := by
    rw [← h3]
    split_ifs with h1 h2
    · exact (hw2 MAT_ASH).1
    · exact (hw2 MAT_SMOKE).1
    · exact (hw2 MAT_EMPTY).1
  have hflags2 : w2.flags = w1.flags := by
    rw [← h3]
    split_ifs <;> exact (hw2 _).2.1
  have hdims2 : w2.width = w1.width ∧ w2.height = w1.height := by
    rw [← h3]
    split_ifs <;> exact ⟨(hw2 _).2.2.1, (hw2 _).2.2.2⟩
  -- the worlds after the lifetime zeroing and the flag edits
  have hin3 : IN_BOUNDS ({ w2 with lifetime := Function.update w2.lifetime (x, y) 0 }) x y :=
    IN_BOUNDS_of_dims hdims2.1 hdims2.2 hin
  obtain ⟨r1, r2l, r3, r4, r5⟩ := world_remove_flag_fields
    { w2 with lifetime := Function.update w2.lifetime (x, y) 0 } x y FLAG_BURNING
  have hin4 : IN_BOUNDS (world_remove_flag
      { w2 with lifetime := Function.update w2.lifetime (x, y) 0 } x y FLAG_BURNING) x y :=
    IN_BOUNDS_of_dims r3 r4 hin3
  obtain ⟨a1, a2, a3, a4, a5⟩ := world_add_flag_fields (world_remove_flag
    { w2 with lifetime := Function.update w2.lifetime (x, y) 0 } x y FLAG_BURNING) x y
    FLAG_UPDATED
  have hin5 : IN_BOUNDS (world_add_flag (world_remove_flag
      { w2 with lifetime := Function.update w2.lifetime (x, y) 0 } x y FLAG_BURNING) x y
      FLAG_UPDATED) x y :=
    IN_BOUNDS_of_dims a3 a4 hin4
  have hflag5 : (world_add_flag (world_remove_flag
      { w2 with lifetime := Function.update w2.lifetime (x, y) 0 } x y FLAG_BURNING) x y
      FLAG_UPDATED).flags (x, y) = (w1.flags (x, y) &&& (FLAG_BURNING ^^^ 65535)) ||| FLAG_UPDATED := by
    rw [a5, if_pos hin4, Function.update_same, r5, if_pos hin3, Function.update_same]
    simp [hflags2]
  simp only [fire_death_result]
  rw [h3]
  refine ⟨?_, ?_, ?_, ?_⟩
  · rw [a1, r1]
    exact hmat2
  · rw [a2, r2l]
    simp
  · simp only [world_has_flag]
    rw [if_pos hin5, hflag5]
    simp only [FLAG_BURNING, FLAG_UPDATED]
    simpa using death_flags_burning (w1.flags (x, y))
  · simp only [world_has_flag]
    rw [if_pos hin5, hflag5]
    simp only [FLAG_BURNING, FLAG_UPDATED]
    simp [or_one_updated ((w1.flags (x, y) &&& (4 ^^^ 65535)))]

/- ============================================================
   C5: fire death condition and products
   ============================================================ -/

/-- Claim C5: a fire cell (not yet Updated) dies exactly when the first
randf draw is below FIRE_DIE_CHANCE = 0.02 or its incremented lifetime is
at least FIRE_MAX_LIFETIME = 120; on death one further randf draw r picks
the product (r below 0.3 gives Ash, r in [0.3, 0.8) gives Smoke, else
Empty), the lifetime is zeroed, Burning is cleared, Updated is set, and
exactly the two draws were consumed. -/
theorem fire_update_cell_death_spec (rs : ℕ → ℕ) (k : ℕ) (w : World) (x y : ℤ)
    (hupd : world_has_flag w x y FLAG_UPDATED = false)
    (hmat : world_get_mat w x y = MAT_FIRE) :
    ((fire_update_cell rs k w x y).2.2 = FireOutcome.died ↔
      (randf (rs k) < FIRE_DIE_CHANCE ∨
        FIRE_MAX_LIFETIME ≤
          (if w.lifetime (x, y) < 255 then w.lifetime (x, y) + 1 else w.lifetime (x, y)))) ∧
    ((fire_update_cell rs k w x y).2.2 = FireOutcome.died →
      ((fire_update_cell rs k w x y).1.mat (x, y) =
        (if randf (rs (k + 1)) < 3 / 10 then MAT_ASH
         else if randf (rs (k + 1)) < 8 / 10 then MAT_SMOKE else MAT_EMPTY) ∧
       (fire_update_cell rs k w x y).1.lifetime (x, y) = 0 ∧
       world_has_flag (fire_update_cell rs k w x y).1 x y FLAG_BURNING = false ∧
       world_has_flag (fire_update_cell rs k w x y).1 x y FLAG_UPDATED = true ∧
       (fire_update_cell rs k w x y).2.1 = k + 2)) := by
  have hin : IN_BOUNDS w x y := get_mat_ne_empty_in_bounds (by rw [hmat]; decide)
  obtain ⟨bf, bm, bt, btn, bw, bh, bl⟩ := bump_lifetime_fields w (x, y)
  have hin1 : IN_BOUNDS (bump_lifetime w (x, y)) x y := IN_BOUNDS_of_dims bw bh hin
  by_cases hd : randf (rs k) < FIRE_DIE_CHANCE ∨
      FIRE_MAX_LIFETIME ≤ (bump_lifetime w (x, y)).lifetime (x, y)
  · have key : fire_update_cell rs k w x y =
        (fire_death_result (randf (rs (k + 1))) (bump_lifetime w (x, y)) x y, k + 2,
          FireOutcome.died) := by
      simp only [fire_update_cell, hupd, hmat, Bool.false_eq_true, if_false, ne_eq,
        not_true_eq_false, ite_false, ge_iff_le]
      rw [if_pos hd]
    rw [key]
    obtain ⟨d1, d2, d3, d4⟩ :=
      fire_death_result_spec (randf (rs (k + 1))) (bump_lifetime w (x, y)) x y hin1
    refine ⟨⟨fun _ => by rw [bl] at hd; exact hd, fun _ => rfl⟩, fun _ => ⟨d1, d2, d3, d4, rfl⟩⟩
  · have key : fire_update_cell rs k w x y =
        ((fire_update_cell_live rs (k + 1) (bump_lifetime w (x, y)) x y).1,
          (fire_update_cell_live rs (k + 1) (bump_lifetime w (x, y)) x y).2,
          FireOutcome.continued) := by
      simp only [fire_update_cell, hupd, hmat, Bool.false_eq_true, if_false, ne_eq,
        not_true_eq_false, ite_false, ge_iff_le]
      rw [if_neg hd]
    rw [key]
    refine ⟨⟨fun hcon => FireOutcome.noConfusion hcon, fun hr => ?_⟩,
      fun hcon => FireOutcome.noConfusion hcon⟩
    rw [bl] at hd
    exact absurd hr hd

/-- Concrete 1 by 1 world holding a burning fire cell. -/
def fireWorld : World :=
  { width := 1, height := 1
    mat := fun _ => MAT_FIRE
    flags := fun _ => FLAG_BURNING
    color_seed := fun _ => 3
    temp := fun _ => 800
    temp_next := fun _ => 800
    vel_x := fun _ => 0
    vel_y := fun _ => 0
    lifetime := fun _ => 10
    chunk_active := fun _ => true
    chunk_active_next := fun _ => false
    cells_updated := 0 }

/-- Witness for C5: with an all-zero draw stream the fire cell of
fireWorld dies (first draw 0 is below 0.02) and the product draw 0 gives
Ash. -/
theorem fire_update_cell_death_spec_witness :
    world_has_flag fireWorld 0 0 FLAG_UPDATED = false ∧
    world_get_mat fireWorld 0 0 = MAT_FIRE ∧
    ((fire_update_cell (fun _ => 0) 0 fireWorld 0 0).1.mat (0, 0) =
      (if randf ((fun _ => 0) (0 + 1)) < 3 / 10 then MAT_ASH
       else if randf ((fun _ => 0) (0 + 1)) < 8 / 10 then MAT_SMOKE else MAT_EMPTY) ∧
     (fire_update_cell (fun _ => 0) 0 fireWorld 0 0).1.lifetime (0, 0) = 0 ∧
     world_has_flag (fire_update_cell (fun _ => 0) 0 fireWorld 0 0).1 0 0 FLAG_BURNING = false ∧
     world_has_flag (fire_update_cell (fun _ => 0) 0 fireWorld 0 0).1 0 0 FLAG_UPDATED = true ∧
     (fire_update_cell (fun _ => 0) 0 fireWorld 0 0).2.1 = 0 + 2) := by
  have h1 : world_has_flag fireWorld 0 0 FLAG_UPDATED = false := by decide
  have h2 : world_get_mat fireWorld 0 0 = MAT_FIRE := by decide
  have hspec := fire_update_cell_death_spec (fun _ => 0) 0 fireWorld 0 0 h1 h2
  have hdied : (fire_update_cell (fun _ => 0) 0 fireWorld 0 0).2.2 = FireOutcome.died :=
    hspec.1.mpr (Or.inl (by norm_num [randf, FIRE_DIE_CHANCE]))
  exact ⟨h1, h2, hspec.2 hdied⟩

/-- Replacement branch of gas_update_cell, evaluated: the replacement
material lands in the cell, the lifetime is zeroed and Updated is set. -/
lemma gas_vanish_result_spec (m : MaterialID) (w1 : World) (x y : ℤ)
    (hin : IN_BOUNDS w1 x y) :
    (gas_vanish_result m w1 x y).mat (x, y) = m ∧
    (gas_vanish_result m w1 x y).lifetime (x, y) = 0 ∧
    world_has_flag (gas_vanish_result m w1 x y) x y FLAG_UPDATED = true := by
  obtain ⟨s1, s2, _, _, _, s6, s7, _, _, s10⟩ := world_set_mat_fields w1 x y m
  have hin3 : IN_BOUNDS
      ({ world_set_mat w1 x y m with
        lifetime := Function.update (world_set_mat w1 x y m).lifetime (x, y) 0 }) x y :=
    IN_BOUNDS_of_dims s6 s7 hin
  obtain ⟨a1, a2, a3, a4, a5⟩ := world_add_flag_fields
    { world_set_mat w1 x y m with
      lifetime := Function.update (world_set_mat w1 x y m).lifetime (x, y) 0 } x y
    FLAG_UPDATED
  have hin4 : IN_BOUNDS (world_add_flag
      { world_set_mat w1 x y m with
        lifetime := Function.update (world_set_mat w1 x y m).lifetime (x, y) 0 } x y
      FLAG_UPDATED) x y :=
    IN_BOUNDS_of_dims a3 a4 hin3
  simp only [gas_vanish_result]
  refine ⟨?_, ?_, ?_⟩
  · rw [a1]
    show (world_set_mat w1 x y m).mat (x, y) = m
    rw [s10, if_pos hin]
    simp
  · rw [a2]
    simp
  · simp only [world_has_flag]
    rw [if_pos hin4, a5, if_pos hin3, Function.update_same]
    simp only [FLAG_UPDATED]
    simp [or_one_updated]

/- ============================================================
   C3: steam condensation chance
   ============================================================ -/

/-- Evaluation of gas_update_cell on a cool steam cell whose condensation
draw passes: the condensed branch runs. -/
lemma gas_update_cell_steam_condense_eval (rs : ℕ → ℕ) (k : ℕ) (w : World) (x y : ℤ)
    (hupd : world_has_flag w x y FLAG_UPDATED = false)
    (hmat : world_get_mat w x y = MAT_STEAM)
    (htemp : w.temp (x, y) < 80)
    (hc : randf (rs k) < STEAM_CONDENSE_CHANCE * (100 - w.temp (x, y)) / 100) :
    gas_update_cell rs k w x y =
      (gas_vanish_result MAT_WATER (bump_lifetime w (x, y)) x y, k + 1,
        GasOutcome.condensed) := by
  obtain ⟨bf, bm, bt, btn, bw, bh, bl⟩ := bump_lifetime_fields w (x, y)
  have htemp1 : (bump_lifetime w (x, y)).temp (x, y) < 80 := by rw [bt]; exact htemp
  have hc1 : randf (rs k) <
      STEAM_CONDENSE_CHANCE * (100 - (bump_lifetime w (x, y)).temp (x, y)) / 100 := by
    rw [bt]; exact hc
  simp only [gas_update_cell, hupd, hmat, Bool.false_eq_true, if_false, ne_eq,
    not_true_eq_false, ite_false, MAT_STEAM, MAT_FIRE, MAT_SMOKE]
  norm_num
  rw [if_pos htemp1, if_pos hc1]
  rw [if_pos (show material_state 9 = MaterialState.gas from rfl)]

/-- Evaluation of gas_update_cell on a cool steam cell whose condensation
draw fails: the movement block runs. -/
lemma gas_update_cell_steam_move_eval (rs : ℕ → ℕ) (k : ℕ) (w : World) (x y : ℤ)
    (hupd : world_has_flag w x y FLAG_UPDATED = false)
    (hmat : world_get_mat w x y = MAT_STEAM)
    (htemp : w.temp (x, y) < 80)
    (hc : ¬ randf (rs k) < STEAM_CONDENSE_CHANCE * (100 - w.temp (x, y)) / 100) :
    gas_update_cell rs k w x y =
      ((gas_update_cell_move rs (k + 1) (bump_lifetime w (x, y)) x y MAT_STEAM).1,
        (gas_update_cell_move rs (k + 1) (bump_lifetime w (x, y)) x y MAT_STEAM).2,
        GasOutcome.continued) := by
  obtain ⟨bf, bm, bt, btn, bw, bh, bl⟩ := bump_lifetime_fields w (x, y)
  have htemp1 : (bump_lifetime w (x, y)).temp (x, y) < 80 := by rw [bt]; exact htemp
  have hc1 : ¬ randf (rs k) <
      STEAM_CONDENSE_CHANCE * (100 - (bump_lifetime w (x, y)).temp (x, y)) / 100 := by
    rw [bt]; exact hc
  simp only [gas_update_cell, hupd, hmat, Bool.false_eq_true, if_false, ne_eq,
    not_true_eq_false, ite_false, MAT_STEAM, MAT_FIRE, MAT_SMOKE]
  norm_num
  rw [if_pos htemp1, if_neg hc1]
  rw [if_pos (show material_state 9 = MaterialState.gas from rfl)]

/-- Claim C3 (amended): in the gas stage a Steam cell (not yet Updated)
with temperature t below 80 is replaced by Water exactly when the randf
draw falls below STEAM_CONDENSE_CHANCE * (100 - t) / 100, that is with
probability 0.01 * (100 - t) / 100, not 0.01 * (80 - t) / 80; on
replacement the lifetime is zeroed and Updated is set. -/
theorem gas_update_cell_condense_spec (rs : ℕ → ℕ) (k : ℕ) (w : World) (x y : ℤ)
    (hupd : world_has_flag w x y FLAG_UPDATED = false)
    (hmat : world_get_mat w x y = MAT_STEAM)
    (htemp : w.temp (x, y) < 80) :
    ((gas_update_cell rs k w x y).2.2 = GasOutcome.condensed ↔
      randf (rs k) < STEAM_CONDENSE_CHANCE * (100 - w.temp (x, y)) / 100) ∧
    ((gas_update_cell rs k w x y).2.2 = GasOutcome.condensed →
      ((gas_update_cell rs k w x y).1.mat (x, y) = MAT_WATER ∧
       (gas_update_cell rs k w x y).1.lifetime (x, y) = 0 ∧
       world_has_flag (gas_update_cell rs k w x y).1 x y FLAG_UPDATED = true ∧
       (gas_update_cell rs k w x y).2.1 = k + 1)) := by
  have hin : IN_BOUNDS w x y := get_mat_ne_empty_in_bounds (by rw [hmat]; decide)
  obtain ⟨bf, bm, bt, btn, bw, bh, bl⟩ := bump_lifetime_fields w (x, y)
  have hin1 : IN_BOUNDS (bump_lifetime w (x, y)) x y := IN_BOUNDS_of_dims bw bh hin
  by_cases hc : randf (rs k) < STEAM_CONDENSE_CHANCE * (100 - w.temp (x, y)) / 100
  · rw [gas_update_cell_steam_condense_eval rs k w x y hupd hmat htemp hc]
    obtain ⟨d1, d2, d3⟩ :=
      gas_vanish_result_spec MAT_WATER (bump_lifetime w (x, y)) x y hin1
    exact ⟨⟨fun _ => hc, fun _ => rfl⟩, fun _ => ⟨d1, d2, d3, rfl⟩⟩
  · rw [gas_update_cell_steam_move_eval rs k w x y hupd hmat htemp hc]
    exact ⟨⟨fun hcon => GasOutcome.noConfusion hcon, fun hr => absurd hr hc⟩,
      fun hcon => GasOutcome.noConfusion hcon⟩

/-- Modelled from the spec for comparison: the condensation probability
the claim states, 0.01 * (80 - t) / 80. -/
def claimedSteamCondenseChance (t : ℚ) : ℚ := (1 / 100) * (80 - t) / 80

/-- Concrete 1 by 1 world holding a steam cell at 40 degrees. -/
def steamWorld : World :=
  { width := 1, height := 1
    mat := fun _ => MAT_STEAM
    flags := fun _ => 0
    color_seed := fun _ => 0
    temp := fun _ => 40
    temp_next := fun _ => 40
    vel_x := fun _ => 0
    vel_y := fun _ => 0
    lifetime := fun _ => 0
    chunk_active := fun _ => true
    chunk_active_next := fun _ => false
    cells_updated := 0 }

/-- Counterexample for C3 as frozen: at temperature 40 the claimed chance
is 0.005 but the code uses 0.006; with the draw 22000000 (randf about
0.00512, at least the claimed chance) the steam cell still condenses to
Water. -/
theorem steam_condensation_chance_mismatch :
    steamWorld.temp (0, 0) = 40 ∧
    world_get_mat steamWorld 0 0 = MAT_STEAM ∧
    ¬ randf 22000000 < claimedSteamCondenseChance 40 ∧
    (gas_update_cell (fun _ => 22000000) 0 steamWorld 0 0).2.2 = GasOutcome.condensed ∧
    (gas_update_cell (fun _ => 22000000) 0 steamWorld 0 0).1.mat (0, 0) = MAT_WATER := by
  have hupd : world_has_flag steamWorld 0 0 FLAG_UPDATED = false := by decide
  have hmat : world_get_mat steamWorld 0 0 = MAT_STEAM := by decide
  have htemp : steamWorld.temp (0, 0) < 80 := by norm_num [steamWorld]
  have hc : randf ((fun _ => 22000000) 0) <
      STEAM_CONDENSE_CHANCE * (100 - steamWorld.temp (0, 0)) / 100 := by
    norm_num [randf, STEAM_CONDENSE_CHANCE, steamWorld]
  have key := gas_update_cell_steam_condense_eval (fun _ => 22000000) 0 steamWorld 0 0
    hupd hmat htemp hc
  have hin1 : IN_BOUNDS (bump_lifetime steamWorld (0, 0)) 0 0 :=
    IN_BOUNDS_of_dims (bump_lifetime_fields steamWorld (0, 0)).2.2.2.2.1
      (bump_lifetime_fields steamWorld (0, 0)).2.2.2.2.2.1 (by constructor <;> norm_num [steamWorld])
  refine ⟨rfl, hmat, ?_, ?_, ?_⟩
  · norm_num [randf, claimedSteamCondenseChance]
  · rw [key]
  · rw [key]
    exact (gas_vanish_result_spec MAT_WATER (bump_lifetime steamWorld (0, 0)) 0 0 hin1).1

/-- Witness for C3: the amended theorem applied to steamWorld with the
same draw; the code chance at temperature 40 is 0.006 and the draw passes
it, so the cell condenses. -/
theorem gas_update_cell_condense_spec_witness :
    world_has_flag steamWorld 0 0 FLAG_UPDATED = false ∧
    world_get_mat steamWorld 0 0 = MAT_STEAM ∧
    steamWorld.temp (0, 0) < 80 ∧
    ((gas_update_cell (fun _ => 22000000) 0 steamWorld 0 0).2.2 = GasOutcome.condensed ↔
      randf ((fun _ => 22000000) 0) <
        STEAM_CONDENSE_CHANCE * (100 - steamWorld.temp (0, 0)) / 100) := by
  have hupd : world_has_flag steamWorld 0 0 FLAG_UPDATED = false := by decide
  have hmat : world_get_mat steamWorld 0 0 = MAT_STEAM := by decide
  have htemp : steamWorld.temp (0, 0) < 80 := by norm_num [steamWorld]
  exact ⟨hupd, hmat, htemp,
    (gas_update_cell_condense_spec (fun _ => 22000000) 0 steamWorld 0 0 hupd hmat htemp).1⟩

/- ============================================================
   Powder stage embedding (powder.c)
   ============================================================ -/

/-- powder_can_move_to from powder.c: in bounds and empty, fluid or gas. -/
def powder_can_move_to (w : World) (x y : ℤ) : Bool :=
  if IN_BOUNDS w x y then
    let st := material_state (world_get_mat w x y)
    decide (st = .empty ∨ st = .fluid ∨ st = .gas)
  else false

/-- powder_can_displace from powder.c: the target is in bounds, its state
is fluid or gas, and the source density is strictly greater. -/
def powder_can_displace (w : World) (source : MaterialID) (tx ty : ℤ) : Bool :=
  if IN_BOUNDS w tx ty then
    let tgt := world_get_mat w tx ty
    let src_props := material_get source
    let tgt_props := material_get tgt
    if tgt_props.state ≠ .fluid ∧ tgt_props.state ≠ .gas then false
    else decide (src_props.density > tgt_props.density)
  else false

/-- Straight-fall loop of powder_update_cell: advance while the cell below
is passable, zero the vertical velocity of the source cell on the first
block. -/
def powder_fall_loop (x : ℤ) (p : ℤ × ℤ) : ℕ → World → ℤ → World × ℤ
  | 0, w, cur_y => (w, cur_y)
  | n + 1, w, cur_y =>
    if powder_can_move_to w x (cur_y + 1) then powder_fall_loop x p n w (cur_y + 1)
    else ({ w with vel_y := Function.update w.vel_y p 0 }, cur_y)

/-- Movement-selection part of powder_update_cell: gravity integration on
the vertical velocity, the multi-step straight fall, and the diagonal
slide with slide-bias and cohesion draws.  Returns the world after these
effects, the draw counter, and the selected destination if any. -/
def powder_move_decision (rs : ℕ → ℕ) (k : ℕ) (w : World) (x y : ℤ)
    (props : MaterialProps) : World × ℕ × Option (ℤ × ℤ) :=
  let p : ℤ × ℤ := (x, y)
  let v1 := w.vel_y p + props.gravity_step_fixed
  let v2 := FIXED_MUL v1 props.drag_factor_fixed
  let v3 := CLAMP v2 (-props.terminal_velocity_fixed) props.terminal_velocity_fixed
  let wv : World := { w with vel_y := Function.update w.vel_y p v3 }
  let fall_steps_raw := CLAMP ((FIXED_ABS v3).fdiv 256) 0 3
  let fall_steps := if fall_steps_raw = 0 then 1 else fall_steps_raw
  let fall := powder_fall_loop x p fall_steps.toNat wv y
  if fall.2 > y then (fall.1, k, some (x, fall.2))
  else if fall_steps = 1 then
    -- diagonal slide: the slide-bias draw is always consumed here
    let try_left_first := randf (rs k) < props.slide_bias
    let k1 := k + 1
    let can_left0 := powder_can_move_to fall.1 (x - 1) (y + 1)
    let can_right0 := powder_can_move_to fall.1 (x + 1) (y + 1)
    let cohesion_roll := can_left0 ∧ can_right0 ∧ props.cohesion > 0
    let k2 := if cohesion_roll then k1 + 1 else k1
    let blocked := cohesion_roll ∧ randf (rs k1) < props.cohesion
    let can_left := can_left0 ∧ ¬ blocked
    let can_right := can_right0 ∧ ¬ blocked
    if try_left_first then
      if can_left then (fall.1, k2, some (x - 1, y + 1))
      else if can_right then (fall.1, k2, some (x + 1, y + 1))
      else (fall.1, k2, none)
    else
      if can_right then (fall.1, k2, some (x + 1, y + 1))
      else if can_left then (fall.1, k2, some (x - 1, y + 1))
      else (fall.1, k2, none)
  else (fall.1, k, none)

/-- Execution part of powder_update_cell: swap with an empty target, or
displace a fluid or gas of lower density (with the splash side effect when
falling fast into a fluid); both endpoints are marked Updated and the
update counted whenever a destination was selected.  The third component
is the target of the executed swap, if one was executed. -/
def powder_execute (rs : ℕ → ℕ) (k : ℕ) (w2 : World) (x y nx ny : ℤ)
    (mat : MaterialID) : World × ℕ × Option (ℤ × ℤ) :=
  let p : ℤ × ℤ := (x, y)
  let target := world_get_mat w2 nx ny
  let finish : World → ℕ → Option (ℤ × ℤ) → World × ℕ × Option (ℤ × ℤ) :=
    fun wr kr tag =>
      let wa := world_add_flag (world_add_flag wr nx ny FLAG_UPDATED) x y FLAG_UPDATED
      ({ wa with cells_updated := wa.cells_updated + 1 }, kr, tag)
  if material_is_empty target then
    finish (world_swap_cells w2 x y nx ny) k (some (nx, ny))
  else if powder_can_displace w2 mat nx ny then
    let impact_vel := w2.vel_y p
    if material_is_fluid target ∧ FIXED_ABS impact_vel > FIXED_FROM_FLOAT (3 / 2) then
      let splash_dir : ℤ := if rs k &&& 1 ≠ 0 then -1 else 1
      let k1 := k + 1
      let sx := nx + splash_dir
      let sy := ny - 1
      let wsp :=
        if IN_BOUNDS w2 sx sy then
          let splash_target := world_get_mat w2 sx sy
          if material_is_empty splash_target ∨ material_is_gas splash_target then
            let ws := world_set_mat w2 sx sy target
            { ws with
              vel_x := Function.update ws.vel_x (sx, sy)
                (FIXED_FROM_FLOAT ((splash_dir : ℚ) * (8 / 10)))
              vel_y := Function.update ws.vel_y (sx, sy) (FIXED_FROM_FLOAT (-(1 / 2)))
              color_seed := Function.update ws.color_seed (sx, sy)
                (w2.color_seed (nx, ny)) }
          else w2
        else w2
      finish (world_swap_cells wsp x y nx ny) k1 (some (nx, ny))
    else
      finish (world_swap_cells w2 x y nx ny) k (some (nx, ny))
  else
    finish w2 k none

/-- powder_update_cell from powder.c: skip when Updated or not a powder;
the settle shortcut (one draw, always consumed), then movement selection
and execution. -/
def powder_update_cell (rs : ℕ → ℕ) (k : ℕ) (w : World) (x y : ℤ) :
    World × ℕ × Option (ℤ × ℤ) :=
  if world_has_flag w x y FLAG_UPDATED = true then (w, k, none)
  else if ¬ material_is_powder (world_get_mat w x y) then (w, k, none)
  else
    let mat := world_get_mat w x y
    let props := material_get mat
    let settled : Prop :=
      randf (rs k) < props.settle_probability ∧
      (let below := world_get_mat w x (y + 1)
       (¬ material_is_empty below ∧ ¬ material_is_fluid below ∧
         material_state below ≠ .gas) ∧
       ¬ powder_can_move_to w (x - 1) (y + 1) = true ∧
       ¬ powder_can_move_to w (x + 1) (y + 1) = true)
    let k0 := k + 1
    if settled then (w, k0, none)
    else
      let decision := powder_move_decision rs k0 w x y props
      match decision.2.2 with
      | none => (decision.1, decision.2.1, none)
      | some (nx, ny) => powder_execute rs decision.2.1 decision.1 x y nx ny mat

lemma world_get_mat_congr {w1 w2 : World} (hm : w1.mat = w2.mat)
    (hw : w1.width = w2.width) (hh : w1.height = w2.height) (x y : ℤ) :
    world_get_mat w1 x y = world_get_mat w2 x y := by
  simp only [world_get_mat, IN_BOUNDS, hm, hw, hh]

lemma powder_fall_loop_fields (x : ℤ) (p : ℤ × ℤ) (n : ℕ) :
    ∀ (w : World) (cur_y : ℤ),
      (powder_fall_loop x p n w cur_y).1.mat = w.mat ∧
      (powder_fall_loop x p n w cur_y).1.width = w.width ∧
      (powder_fall_loop x p n w cur_y).1.height = w.height := by
  induction n with
  | zero => intro w cur_y; exact ⟨rfl, rfl, rfl⟩
  | succ n ih =>
    intro w cur_y
    simp only [powder_fall_loop]
    split_ifs with h
    · exact ih w (cur_y + 1)
    · exact ⟨rfl, rfl, rfl⟩

lemma powder_move_decision_fields (rs : ℕ → ℕ) (k : ℕ) (w : World) (x y : ℤ)
    (props : MaterialProps) :
    (powder_move_decision rs k w x y props).1.mat = w.mat ∧
    (powder_move_decision rs k w x y props).1.width = w.width ∧
    (powder_move_decision rs k w x y props).1.height = w.height := by
  simp only [powder_move_decision]
  split_ifs <;>
    exact ⟨(powder_fall_loop_fields x (x, y) _ _ y).1,
      (powder_fall_loop_fields x (x, y) _ _ y).2.1,
      (powder_fall_loop_fields x (x, y) _ _ y).2.2⟩

lemma powder_can_displace_spec {w : World} {source : MaterialID} {tx ty : ℤ}
    (h : powder_can_displace w source tx ty = true) :
    (material_state (world_get_mat w tx ty) = .fluid ∨
      material_state (world_get_mat w tx ty) = .gas) ∧
    (material_get (world_get_mat w tx ty)).density < (material_get source).density := by
  simp only [powder_can_displace] at h
  by_cases h1 : IN_BOUNDS w tx ty
  · rw [if_pos h1] at h
    by_cases h2 : (material_get (world_get_mat w tx ty)).state ≠ MaterialState.fluid ∧
        (material_get (world_get_mat w tx ty)).state ≠ MaterialState.gas
    · rw [if_pos h2] at h
      exact absurd h (by simp)
    · rw [if_neg h2] at h
      refine ⟨?_, ?_⟩
      · rcases not_and_or.mp h2 with h3 | h3
        · exact Or.inl (not_not.mp h3)
        · exact Or.inr (not_not.mp h3)
      · exact of_decide_eq_true h
  · rw [if_neg h1] at h
    exact absurd h (by simp)

lemma powder_execute_tag {rs : ℕ → ℕ} {k : ℕ} {w2 : World} {x y nx ny : ℤ}
    {mat : MaterialID} {tx ty : ℤ}
    (h : (powder_execute rs k w2 x y nx ny mat).2.2 = some (tx, ty)) :
    nx = tx ∧ ny = ty ∧
    (material_is_empty (world_get_mat w2 nx ny) = true ∨
      powder_can_displace w2 mat nx ny = true) := by
  simp only [powder_execute] at h
  split_ifs at h with h1 h2 h3 h4 h5 <;> simp at h <;>
    first
      | exact ⟨h.1, h.2, Or.inl h1⟩
      | exact ⟨h.1, h.2, Or.inr h2⟩

/- ============================================================
   C6: powder swaps respect density ordering
   ============================================================ -/

/-- Claim C6: whenever powder_update_cell executes a swap of the powder at
(x, y) with a target cell, the target is either Empty (always allowed) or
its material state is Fluid or Gas and the powder density is strictly
greater than the target density. -/
theorem powder_update_cell_swap_density (rs : ℕ → ℕ) (k : ℕ) (w : World) (x y tx ty : ℤ)
    (h : (powder_update_cell rs k w x y).2.2 = some (tx, ty)) :
    material_is_empty (world_get_mat w tx ty) = true ∨
    ((material_state (world_get_mat w tx ty) = .fluid ∨
        material_state (world_get_mat w tx ty) = .gas) ∧
      (material_get (world_get_mat w tx ty)).density <
        (material_get (world_get_mat w x y)).density) := by
  simp only [powder_update_cell] at h
  split_ifs at h with hu hp hs
  rcases hdec : (powder_move_decision rs (k + 1) w x y
      (material_get (world_get_mat w x y))).2.2 with _ | ⟨nx, ny⟩
  · rw [hdec] at h
    simp at h
  · rw [hdec] at h
    obtain ⟨hx, hy, hcase⟩ := powder_execute_tag h
    obtain ⟨dm, dw, dh⟩ := powder_move_decision_fields rs (k + 1) w x y
      (material_get (world_get_mat w x y))
    have hget : world_get_mat
        (powder_move_decision rs (k + 1) w x y (material_get (world_get_mat w x y))).1
          nx ny = world_get_mat w nx ny :=
      world_get_mat_congr dm dw dh nx ny
    subst hx
    subst hy
    rcases hcase with hemp | hdisp
    · left
      rw [← hget]
      exact hemp
    · right
      have hspec := powder_can_displace_spec hdisp
      rw [hget] at hspec
      exact hspec

/-- Concrete 1 by 2 world: sand on top of water. -/
def sandWaterWorld : World :=
  { width := 1, height := 2
    mat := fun p => if p = (0, 0) then MAT_SAND else MAT_WATER
    flags := fun _ => 0
    color_seed := fun _ => 0
    temp := fun _ => 20
    temp_next := fun _ => 20
    vel_x := fun _ => 0
    vel_y := fun _ => 0
    lifetime := fun _ => 0
    chunk_active := fun _ => true
    chunk_active_next := fun _ => false
    cells_updated := 0 }

/-- Witness for C6: with a maximal draw (so the settle shortcut does not
trigger) the sand cell of sandWaterWorld swaps with the water cell below
it, and the theorem yields the density condition for that swap. -/
theorem powder_update_cell_swap_density_witness :
    (powder_update_cell (fun _ => 4294967295) 0 sandWaterWorld 0 0).2.2 = some (0, 1) ∧
    (material_is_empty (world_get_mat sandWaterWorld 0 1) = true ∨
      ((material_state (world_get_mat sandWaterWorld 0 1) = .fluid ∨
          material_state (world_get_mat sandWaterWorld 0 1) = .gas) ∧
        (material_get (world_get_mat sandWaterWorld 0 1)).density <
          (material_get (world_get_mat sandWaterWorld 0 0)).density)) := by
  have ht : Int.tdiv 3072 125 = 24 := by decide
  have hf : ((24 : ℤ) * 192).fdiv 256 = 18 := by decide
  have hf2 : ((4608 : ℤ)).fdiv 256 = 18 := by decide
  have hf3 : ((18 : ℤ)).fdiv 256 = 0 := by decide
  have hdec : (powder_update_cell (fun _ => 4294967295) 0 sandWaterWorld 0 0).2.2 =
      some (0, 1) := by
    norm_num [powder_update_cell, world_has_flag, sandWaterWorld, material_is_powder,
      material_state, material_get, world_get_mat, IN_BOUNDS, randf,
      powder_move_decision, FIXED_MUL, FIXED_ABS, CLAMP, FIXED_FROM_FLOAT, ratTrunc,
      powder_fall_loop, powder_can_move_to, powder_execute, material_is_empty,
      material_is_fluid, powder_can_displace, GRAVITY_ACCEL,
      MaterialProps.gravity_step_fixed, MaterialProps.drag_factor_fixed,
      MaterialProps.terminal_velocity_fixed, emptyProps, MAT_SAND, MAT_WATER, MAT_EMPTY,
      ht, hf, hf2, hf3, sup_eq_max, inf_eq_min, max_def, min_def]
  exact ⟨hdec, powder_update_cell_swap_density (fun _ => 4294967295) 0 sandWaterWorld
    0 0 0 1 hdec⟩

/- ============================================================
   Thermal stage embedding (thermal.c)
   ============================================================ -/

def FIRE_TEMPERATURE : ℚ := 800

def AMBIENT_TEMP : ℚ := 20

def HEAT_DIFFUSION_RATE : ℚ := 15 / 100

def AMBIENT_COOLING_RATE : ℚ := 1 / 1000

def MIN_TEMPERATURE : ℚ := -100

def MAX_TEMPERATURE : ℚ := 2000

/-- Cardinal neighbor offsets of the diffusion loop, in the order of the
dx and dy arrays of thermal.c. -/
def THERMAL_NEIGHBOR4 : List (ℤ × ℤ) := [(-1, 0), (1, 0), (0, -1), (0, 1)]

/-- Value written to temp_next for one visited cell by the diffusion pass
of thermal_update.  The square root of the float code is abstracted by the
function sq; no verified property depends on its values. -/
def thermal_diffuse_value (sq : ℚ → ℚ) (w : World) (x y : ℤ) : ℚ :=
  let idx : ℤ × ℤ := (x, y)
  let mat := w.mat idx
  let temp := w.temp idx
  if mat = MAT_FIRE then FIRE_TEMPERATURE
  else if mat = MAT_EMPTY then temp + (AMBIENT_TEMP - temp) * (1 / 10)
  else
    let props := material_get mat
    let conductivity := props.conductivity
    if conductivity ≤ 1 / 1000 then temp
    else
      let acc := THERMAL_NEIGHBOR4.foldl
        (fun (acc : ℚ × ℕ) d =>
          let nx := x + d.1
          let ny := y + d.2
          if IN_BOUNDS w nx ny then
            let nmat := w.mat (nx, ny)
            let ntemp := w.temp (nx, ny)
            let ncond := (material_get nmat).conductivity
            let eff_cond := if conductivity * ncond > 0 then sq (conductivity * ncond) else 0
            (acc.1 + (ntemp - temp) * eff_cond, acc.2 + 1)
          else acc)
        (0, 0)
      let base :=
        if acc.2 > 0 then
          let delta := acc.1 * HEAT_DIFFUSION_RATE / (acc.2 : ℚ)
          let thermal_mass :=
            if props.heat_capacity < 1 / 10 then (1 : ℚ) / 10 else props.heat_capacity
          temp + delta / thermal_mass
        else temp
      let cooled := base + (AMBIENT_TEMP - base) * AMBIENT_COOLING_RATE
      if cooled < MIN_TEMPERATURE then MIN_TEMPERATURE
      else if cooled > MAX_TEMPERATURE then MAX_TEMPERATURE
      else cooled

/-- Cell visit order of both thermal passes: top-down, left-right. -/
def thermalVisitOrder (width height : ℕ) : List (ℕ × ℕ) :=
  (List.range height).flatMap (rowLeftRight width)

/-- Diffusion pass of thermal_update: every visited cell whose chunk is
active gets its temp_next rewritten; cells of inactive chunks are
skipped. -/
def thermal_pass1 (sq : ℚ → ℚ) (w0 : World) : World :=
  (thermalVisitOrder w0.width.toNat w0.height.toNat).foldl
    (fun w p =>
      let x : ℤ := (p.1 : ℤ)
      let y : ℤ := (p.2 : ℤ)
      if world_is_chunk_active w (x / CHUNK_SIZE) (y / CHUNK_SIZE) = true then
        { w with
          temp_next := Function.update w.temp_next (x, y) (thermal_diffuse_value sq w x y) }
      else w)
    w0

/-- Shared tail of the four phase transitions of thermal_check_phase_change:
write the new material, optionally zero the lifetime, and add the latent
heat delta to temp_next. -/
def phase_apply (w : World) (x y : ℤ) (m2 : MaterialID) (zero_life : Bool) (dT : ℚ) :
    World :=
  let wa := world_set_mat w x y m2
  let wb :=
    if zero_life then { wa with lifetime := Function.update wa.lifetime (x, y) 0 } else wa
  { wb with temp_next := Function.update wb.temp_next (x, y) (wb.temp_next (x, y) + dT) }

/-- One guarded phase transition of thermal_check_phase_change: when the
guard holds one randf draw is consumed, and when the draw passes the
transition is applied. -/
def phase_cond_step (cond : Prop) [Decidable cond] (chance : ℚ) (rs : ℕ → ℕ)
    (m2 : MaterialID) (zero_life : Bool) (dT : ℚ) (x y : ℤ) (wk : World × ℕ) :
    World × ℕ :=
  if cond then
    (if randf (rs wk.2) < chance then phase_apply wk.1 x y m2 zero_life dT else wk.1,
      wk.2 + 1)
  else wk

/-- thermal_check_phase_change from thermal.c: the material and the
temperature are read once at entry; then the four guarded transitions run
in source order (ice melting, water freezing, water boiling, steam
condensation). -/
def thermal_check_phase_change (rs : ℕ → ℕ) (w : World) (k : ℕ) (x y : ℤ) :
    World × ℕ :=
  let mat := w.mat (x, y)
  let temp := w.temp_next (x, y)
  let props := material_get mat
  let s1 := phase_cond_step (mat = MAT_ICE ∧ temp > props.melting_temp)
    (1 / 100 + (temp - props.melting_temp) * (2 / 1000)) rs MAT_WATER false (-10) x y (w, k)
  let s2 := phase_cond_step (mat = MAT_WATER ∧ temp < 0)
    (5 / 1000 + (-temp) * (1 / 1000)) rs MAT_ICE false 5 x y s1
  let s3 := phase_cond_step (mat = MAT_WATER ∧ temp > props.boiling_temp)
    (2 / 100 + (temp - props.boiling_temp) * (5 / 1000)) rs MAT_STEAM true (-50) x y s2
  phase_cond_step (mat = MAT_STEAM ∧ temp < 80)
    (1 / 100 + (80 - temp) * (1 / 1000)) rs MAT_WATER true 20 x y s3

/-- Phase-change pass of thermal_update: every visited cell whose chunk is
active goes through thermal_check_phase_change. -/
def thermal_pass2 (rs : ℕ → ℕ) (w0 : World) (k0 : ℕ) : World × ℕ :=
  (thermalVisitOrder w0.width.toNat w0.height.toNat).foldl
    (fun (acc : World × ℕ) p =>
      let x : ℤ := (p.1 : ℤ)
      let y : ℤ := (p.2 : ℤ)
      if world_is_chunk_active acc.1 (x / CHUNK_SIZE) (y / CHUNK_SIZE) = true then
        thermal_check_phase_change rs acc.1 acc.2 x y
      else acc)
    (w0, k0)

/-- thermal_update from thermal.c: the diffusion pass, the phase-change
pass, then the swap of the temp and temp_next buffers. -/
def thermal_update (sq : ℚ → ℚ) (rs : ℕ → ℕ) (k : ℕ) (w : World) : World × ℕ :=
  let w1 := thermal_pass1 sq w
  let wk2 := thermal_pass2 rs w1 k
  ({ wk2.1 with temp := wk2.1.temp_next, temp_next := wk2.1.temp }, wk2.2)

lemma foldl_pres {β α : Type} (P : β → Prop) (f : β → α → β)
    (hf : ∀ b a, P b → P (f b a)) :
    ∀ (l : List α) (b : β), P b → P (List.foldl f b l) := by
  intro l
  induction l with
  | nil => intro b hb; exact hb
  | cons a l ih => intro b hb; exact ih (f b a) (hf b a hb)

lemma phase_apply_fields (w : World) (x y : ℤ) (m2 : MaterialID) (zl : Bool) (dT : ℚ) :
    (phase_apply w x y m2 zl dT).temp = w.temp ∧
    (phase_apply w x y m2 zl dT).chunk_active = w.chunk_active ∧
    (phase_apply w x y m2 zl dT).width = w.width ∧
    (phase_apply w x y m2 zl dT).height = w.height ∧
    (phase_apply w x y m2 zl dT).temp_next =
      Function.update w.temp_next (x, y) (w.temp_next (x, y) + dT) := by
  obtain ⟨e1, e2, e3, e4, e5, e6, e7, e8, e9, e10⟩ := world_set_mat_fields w x y m2
  unfold phase_apply
  rcases zl with _ | _ <;>
    simp only [Bool.false_eq_true, if_false, if_true, ite_true, ite_false] <;>
    exact ⟨e3, e8, e6, e7, by rw [e4]⟩

lemma phase_cond_step_fields (cond : Prop) [Decidable cond] (chance : ℚ) (rs : ℕ → ℕ)
    (m2 : MaterialID) (zl : Bool) (dT : ℚ) (x y : ℤ) (wk : World × ℕ) :
    (phase_cond_step cond chance rs m2 zl dT x y wk).1.temp = wk.1.temp ∧
    (phase_cond_step cond chance rs m2 zl dT x y wk).1.chunk_active = wk.1.chunk_active ∧
    (phase_cond_step cond chance rs m2 zl dT x y wk).1.width = wk.1.width ∧
    (phase_cond_step cond chance rs m2 zl dT x y wk).1.height = wk.1.height ∧
    ∀ q, q ≠ (x, y) →
      (phase_cond_step cond chance rs m2 zl dT x y wk).1.temp_next q = wk.1.temp_next q := by
  obtain ⟨p1, p2, p3, p4, p5⟩ := phase_apply_fields wk.1 x y m2 zl dT
  unfold phase_cond_step
  split_ifs with h1 h2
  · exact ⟨p1, p2, p3, p4, fun q hq => by rw [p5, Function.update_noteq hq]⟩
  · exact ⟨rfl, rfl, rfl, rfl, fun q hq => rfl⟩
  · exact ⟨rfl, rfl, rfl, rfl, fun q hq => rfl⟩

lemma thermal_check_phase_change_fields (rs : ℕ → ℕ) (w : World) (k : ℕ) (x y : ℤ) :
    (thermal_check_phase_change rs w k x y).1.temp = w.temp ∧
    (thermal_check_phase_change rs w k x y).1.chunk_active = w.chunk_active ∧
    (thermal_check_phase_change rs w k x y).1.width = w.width ∧
    (thermal_check_phase_change rs w k x y).1.height = w.height ∧
    ∀ q, q ≠ (x, y) →
      (thermal_check_phase_change rs w k x y).1.temp_next q = w.temp_next q := by
  unfold thermal_check_phase_change
  obtain ⟨a1, a2, a3, a4, a5⟩ := phase_cond_step_fields
    (w.mat (x, y) = MAT_ICE ∧ w.temp_next (x, y) > (material_get (w.mat (x, y))).melting_temp)
    (1 / 100 + (w.temp_next (x, y) - (material_get (w.mat (x, y))).melting_temp) * (2 / 1000))
    rs MAT_WATER false (-10) x y (w, k)
  obtain ⟨b1, b2, b3, b4, b5⟩ := phase_cond_step_fields
    (w.mat (x, y) = MAT_WATER ∧ w.temp_next (x, y) < 0)
    (5 / 1000 + (-(w.temp_next (x, y))) * (1 / 1000)) rs MAT_ICE false 5 x y _
  obtain ⟨c1, c2, c3, c4, c5⟩ := phase_cond_step_fields
    (w.mat (x, y) = MAT_WATER ∧ w.temp_next (x, y) > (material_get (w.mat (x, y))).boiling_temp)
    (2 / 100 + (w.temp_next (x, y) - (material_get (w.mat (x, y))).boiling_temp) * (5 / 1000))
    rs MAT_STEAM true (-50) x y _
  obtain ⟨d1, d2, d3, d4, d5⟩ := phase_cond_step_fields
    (w.mat (x, y) = MAT_STEAM ∧ w.temp_next (x, y) < 80)
    (1 / 100 + (80 - w.temp_next (x, y)) * (1 / 1000)) rs MAT_WATER true 20 x y _
  refine ⟨?_, ?_, ?_, ?_, ?_⟩
  · rw [d1, c1, b1, a1]
  · rw [d2, c2, b2, a2]
  · rw [d3, c3, b3, a3]
  · rw [d4, c4, b4, a4]
  · intro q hq
    rw [d5 q hq, c5 q hq, b5 q hq, a5 q hq]

/-- The clamp range of the thermal stage. -/
def tempInRange (t : ℚ) : Prop := MIN_TEMPERATURE ≤ t ∧ t ≤ MAX_TEMPERATURE

lemma phase_cond_step_not (cond : Prop) [Decidable cond] (chance : ℚ) (rs : ℕ → ℕ)
    (m2 : MaterialID) (zl : Bool) (dT : ℚ) (x y : ℤ) (wk : World × ℕ)
    (h : ¬cond) : phase_cond_step cond chance rs m2 zl dT x y wk = wk := by
  unfold phase_cond_step
  exact if_neg h

lemma phase_cond_step_range (cond : Prop) [Decidable cond] (chance : ℚ) (rs : ℕ → ℕ)
    (m2 : MaterialID) (zl : Bool) (dT : ℚ) (x y : ℤ) (wk : World × ℕ)
    (h : ∀ q, tempInRange (wk.1.temp_next q))
    (hd : cond → tempInRange (wk.1.temp_next (x, y) + dT)) :
    ∀ q, tempInRange ((phase_cond_step cond chance rs m2 zl dT x y wk).1.temp_next q) := by
  intro q
  unfold phase_cond_step
  by_cases hc : cond
  · rw [if_pos hc]
    by_cases hr : randf (rs wk.2) < chance
    · rw [if_pos hr]
      obtain ⟨p1, p2, p3, p4, p5⟩ := phase_apply_fields wk.1 x y m2 zl dT
      show tempInRange ((phase_apply wk.1 x y m2 zl dT).temp_next q)
      rw [p5]
      by_cases hq : q = (x, y)
      · rw [hq, Function.update_same]
        exact hd hc
      · rw [Function.update_noteq hq]
        exact h q
    · rw [if_neg hr]
      exact h q
  · rw [if_neg hc]
    exact h q

lemma thermal_check_phase_change_range (rs : ℕ → ℕ) (w : World) (k : ℕ) (x y : ℤ)
    (h : ∀ q, tempInRange (w.temp_next q)) :
    ∀ q, tempInRange ((thermal_check_phase_change rs w k x y).1.temp_next q) := by
  have hxy := h (x, y)
  rw [tempInRange, MIN_TEMPERATURE, MAX_TEMPERATURE] at hxy
  unfold thermal_check_phase_change
  refine phase_cond_step_range _ _ _ _ _ _ _ _ _
    (phase_cond_step_range _ _ _ _ _ _ _ _ _
      (phase_cond_step_range _ _ _ _ _ _ _ _ _
        (phase_cond_step_range _ _ _ _ _ _ _ _ _ h ?_) ?_) ?_) ?_
  · rintro ⟨hm, ht⟩
    have hmelt : (material_get (w.mat (x, y))).melting_temp = 0 := by
      rw [hm]; norm_num [material_get, MAT_ICE]
    rw [hmelt] at ht
    exact ⟨by rw [MIN_TEMPERATURE]; linarith, by rw [MAX_TEMPERATURE]; linarith⟩
  · rintro ⟨hm, ht⟩
    have h1 : ¬(w.mat (x, y) = MAT_ICE ∧
        w.temp_next (x, y) > (material_get (w.mat (x, y))).melting_temp) := by
      rintro ⟨hm2, _⟩
      rw [hm] at hm2
      exact absurd hm2 (by decide)
    rw [phase_cond_step_not _ _ _ _ _ _ _ _ _ h1]
    exact ⟨by rw [MIN_TEMPERATURE]; linarith, by rw [MAX_TEMPERATURE]; linarith⟩
  · rintro ⟨hm, ht⟩
    have hboil : (material_get (w.mat (x, y))).boiling_temp = 100 := by
      rw [hm]; norm_num [material_get, MAT_WATER]
    have h1 : ¬(w.mat (x, y) = MAT_ICE ∧
        w.temp_next (x, y) > (material_get (w.mat (x, y))).melting_temp) := by
      rintro ⟨hm2, _⟩
      rw [hm] at hm2
      exact absurd hm2 (by decide)
    have h2 : ¬(w.mat (x, y) = MAT_WATER ∧ w.temp_next (x, y) < 0) := by
      rw [hboil] at ht
      rintro ⟨_, ht2⟩
      linarith
    rw [phase_cond_step_not _ _ _ _ _ _ _ _ _ h2,
      phase_cond_step_not _ _ _ _ _ _ _ _ _ h1]
    rw [hboil] at ht
    exact ⟨by rw [MIN_TEMPERATURE]; linarith, by rw [MAX_TEMPERATURE]; linarith⟩
  · rintro ⟨hm, ht⟩
    have h1 : ¬(w.mat (x, y) = MAT_ICE ∧
        w.temp_next (x, y) > (material_get (w.mat (x, y))).melting_temp) := by
      rintro ⟨hm2, _⟩
      rw [hm] at hm2
      exact absurd hm2 (by decide)
    have h2 : ¬(w.mat (x, y) = MAT_WATER ∧ w.temp_next (x, y) < 0) := by
      rintro ⟨hm2, _⟩
      rw [hm] at hm2
      exact absurd hm2 (by decide)
    have h3 : ¬(w.mat (x, y) = MAT_WATER ∧
        w.temp_next (x, y) > (material_get (w.mat (x, y))).boiling_temp) := by
      rintro ⟨hm2, _⟩
      rw [hm] at hm2
      exact absurd hm2 (by decide)
    rw [phase_cond_step_not _ _ _ _ _ _ _ _ _ h3,
      phase_cond_step_not _ _ _ _ _ _ _ _ _ h2,
      phase_cond_step_not _ _ _ _ _ _ _ _ _ h1]
    exact ⟨by rw [MIN_TEMPERATURE]; linarith, by rw [MAX_TEMPERATURE]; linarith⟩

lemma clamp_range (c : ℚ) :
    tempInRange (if c < MIN_TEMPERATURE then MIN_TEMPERATURE
      else if c > MAX_TEMPERATURE then MAX_TEMPERATURE else c) := by
  simp only [tempInRange]
  split_ifs with a b
  · exact ⟨le_refl _, by norm_num [MIN_TEMPERATURE, MAX_TEMPERATURE]⟩
  · exact ⟨by norm_num [MIN_TEMPERATURE, MAX_TEMPERATURE], le_refl _⟩
  · exact ⟨le_of_not_lt a, le_of_not_lt b⟩

lemma thermal_diffuse_value_range (sq : ℚ → ℚ) (w : World) (x y : ℤ)
    (h : tempInRange (w.temp (x, y))) :
    tempInRange (thermal_diffuse_value sq w x y) := by
  obtain ⟨hl, hr⟩ := h
  rw [MIN_TEMPERATURE] at hl
  rw [MAX_TEMPERATURE] at hr
  simp only [thermal_diffuse_value]
  by_cases h1 : w.mat (x, y) = MAT_FIRE
  · rw [if_pos h1]
    exact ⟨by norm_num [FIRE_TEMPERATURE, MIN_TEMPERATURE],
      by norm_num [FIRE_TEMPERATURE, MAX_TEMPERATURE]⟩
  · rw [if_neg h1]
    by_cases h2 : w.mat (x, y) = MAT_EMPTY
    · rw [if_pos h2]
      refine ⟨?_, ?_⟩
      · rw [MIN_TEMPERATURE, AMBIENT_TEMP]; linarith
      · rw [MAX_TEMPERATURE, AMBIENT_TEMP]; linarith
    · rw [if_neg h2]
      by_cases h3 : (material_get (w.mat (x, y))).conductivity ≤ 1 / 1000
      · rw [if_pos h3]
        exact ⟨by rw [MIN_TEMPERATURE]; linarith, by rw [MAX_TEMPERATURE]; linarith⟩
      · rw [if_neg h3]
        exact clamp_range _

lemma world_is_chunk_active_congr (w1 w2 : World) (h1 : w1.chunk_active = w2.chunk_active)
    (h2 : w1.width = w2.width) (h3 : w1.height = w2.height) (cx cy : ℤ) :
    world_is_chunk_active w1 cx cy = world_is_chunk_active w2 cx cy := by
  unfold world_is_chunk_active CHUNKS_X CHUNKS_Y
  rw [h1, h2, h3]

lemma thermal_pass1_fields (sq : ℚ → ℚ) (w : World) :
    (thermal_pass1 sq w).temp = w.temp ∧ (thermal_pass1 sq w).mat = w.mat ∧
    (thermal_pass1 sq w).chunk_active = w.chunk_active ∧
    (thermal_pass1 sq w).width = w.width ∧ (thermal_pass1 sq w).height = w.height := by
  unfold thermal_pass1
  refine foldl_pres (fun (w2 : World) => w2.temp = w.temp ∧ w2.mat = w.mat ∧
    w2.chunk_active = w.chunk_active ∧ w2.width = w.width ∧ w2.height = w.height)
    _ ?_ _ _ ⟨rfl, rfl, rfl, rfl, rfl⟩
  intro b a hb
  dsimp only
  split_ifs <;> exact hb

lemma thermal_pass1_stale (sq : ℚ → ℚ) (w : World) (x y : ℤ)
    (hmask : world_is_chunk_active w (x / CHUNK_SIZE) (y / CHUNK_SIZE) = false) :
    (thermal_pass1 sq w).temp_next (x, y) = w.temp_next (x, y) := by
  unfold thermal_pass1
  refine (foldl_pres (fun (w2 : World) => w2.chunk_active = w.chunk_active ∧ w2.width = w.width ∧
    w2.height = w.height ∧ w2.temp_next (x, y) = w.temp_next (x, y))
    _ ?_ _ _ ⟨rfl, rfl, rfl, rfl⟩).2.2.2
  intro b a hb
  dsimp only
  split_ifs with h1
  · refine ⟨hb.1, hb.2.1, hb.2.2.1, ?_⟩
    show Function.update b.temp_next ((a.1 : ℤ), (a.2 : ℤ)) _ (x, y) = w.temp_next (x, y)
    by_cases hq : ((a.1 : ℤ), (a.2 : ℤ)) = ((x : ℤ), (y : ℤ))
    · exfalso
      rw [Prod.mk.injEq] at hq
      rw [hq.1, hq.2, world_is_chunk_active_congr b w hb.1 hb.2.1 hb.2.2.1, hmask] at h1
      exact Bool.false_ne_true h1
    · rw [Function.update_noteq (fun he => hq (by rw [he]))]
      exact hb.2.2.2
  · exact hb

lemma thermal_pass2_temp (rs : ℕ → ℕ) (w : World) (k : ℕ) :
    (thermal_pass2 rs w k).1.temp = w.temp := by
  unfold thermal_pass2
  refine foldl_pres (fun (wk : World × ℕ) => wk.1.temp = w.temp) _ ?_ _ _ rfl
  intro b a hb
  dsimp only
  split_ifs with h1
  · rw [(thermal_check_phase_change_fields rs b.1 b.2 _ _).1]
    exact hb
  · exact hb

lemma thermal_pass2_stale (rs : ℕ → ℕ) (w : World) (k : ℕ) (x y : ℤ)
    (hmask : world_is_chunk_active w (x / CHUNK_SIZE) (y / CHUNK_SIZE) = false) :
    (thermal_pass2 rs w k).1.temp_next (x, y) = w.temp_next (x, y) := by
  unfold thermal_pass2
  refine (foldl_pres (fun (wk : World × ℕ) => wk.1.chunk_active = w.chunk_active ∧ wk.1.width = w.width ∧
    wk.1.height = w.height ∧ wk.1.temp_next (x, y) = w.temp_next (x, y))
    _ ?_ _ _ ⟨rfl, rfl, rfl, rfl⟩).2.2.2
  intro b a hb
  dsimp only
  split_ifs with h1
  · obtain ⟨a1, a2, a3, a4, a5⟩ := thermal_check_phase_change_fields rs b.1 b.2
      ((a.1 : ℕ) : ℤ) ((a.2 : ℕ) : ℤ)
    refine ⟨by rw [a2]; exact hb.1, by rw [a3]; exact hb.2.1, by rw [a4]; exact hb.2.2.1, ?_⟩
    by_cases hq : ((x : ℤ), (y : ℤ)) = (((a.1 : ℕ) : ℤ), ((a.2 : ℕ) : ℤ))
    · exfalso
      rw [Prod.mk.injEq] at hq
      rw [← hq.1, ← hq.2, world_is_chunk_active_congr b.1 w hb.1 hb.2.1 hb.2.2.1, hmask] at h1
      exact Bool.false_ne_true h1
    · rw [a5 (x, y) hq]
      exact hb.2.2.2
  · exact hb

lemma thermal_pass1_range (sq : ℚ → ℚ) (w : World)
    (ht : ∀ q, tempInRange (w.temp q)) (htn : ∀ q, tempInRange (w.temp_next q)) :
    ∀ q, tempInRange ((thermal_pass1 sq w).temp_next q) := by
  unfold thermal_pass1
  refine (foldl_pres (fun (w2 : World) => w2.temp = w.temp ∧
    ∀ q, tempInRange (w2.temp_next q)) _ ?_ _ _ ⟨rfl, htn⟩).2
  intro b a hb
  dsimp only
  split_ifs with h1
  · refine ⟨hb.1, ?_⟩
    intro q
    show tempInRange (Function.update b.temp_next ((a.1 : ℤ), (a.2 : ℤ)) _ q)
    by_cases hq : q = ((a.1 : ℤ), (a.2 : ℤ))
    · rw [hq, Function.update_same]
      refine thermal_diffuse_value_range sq b _ _ ?_
      rw [hb.1]
      exact ht _
    · rw [Function.update_noteq hq]
      exact hb.2 q
  · exact hb

lemma thermal_pass2_range (rs : ℕ → ℕ) (w : World) (k : ℕ)
    (h : ∀ q, tempInRange (w.temp_next q)) :
    ∀ q, tempInRange ((thermal_pass2 rs w k).1.temp_next q) := by
  unfold thermal_pass2
  refine foldl_pres (fun (wk : World × ℕ) => ∀ q, tempInRange (wk.1.temp_next q)) _ ?_ _ _ h
  intro b a hb
  dsimp only
  split_ifs with h1
  · exact thermal_check_phase_change_range rs b.1 b.2 _ _ hb
  · exact hb

lemma thermal_update_stale_cell (sq : ℚ → ℚ) (rs : ℕ → ℕ) (k : ℕ) (w : World) (x y : ℤ)
    (hmask : world_is_chunk_active w (x / CHUNK_SIZE) (y / CHUNK_SIZE) = false) :
    (thermal_update sq rs k w).1.temp (x, y) = w.temp_next (x, y) ∧
    (thermal_update sq rs k w).1.temp_next (x, y) = w.temp (x, y) := by
  obtain ⟨f1, f2, f3, f4, f5⟩ := thermal_pass1_fields sq w
  have hmask1 : world_is_chunk_active (thermal_pass1 sq w) (x / CHUNK_SIZE)
      (y / CHUNK_SIZE) = false := by
    rw [world_is_chunk_active_congr (thermal_pass1 sq w) w f3 f4 f5]
    exact hmask
  constructor
  · show (thermal_pass2 rs (thermal_pass1 sq w) k).1.temp_next (x, y) = w.temp_next (x, y)
    rw [thermal_pass2_stale rs (thermal_pass1 sq w) k x y hmask1]
    exact thermal_pass1_stale sq w x y hmask
  · show (thermal_pass2 rs (thermal_pass1 sq w) k).1.temp (x, y) = w.temp (x, y)
    rw [thermal_pass2_temp rs (thermal_pass1 sq w) k, f1]

/-- One-cell world sitting in a single inactive chunk, with a stale
temp_next buffer (temp 500, temp_next 777) for exercising the thermal
stage. -/
def oneWorld : World :=
  { width := 1
    height := 1
    mat := fun _ => MAT_EMPTY
    flags := fun _ => 0
    color_seed := fun _ => 0
    temp := fun _ => 500
    temp_next := fun _ => 777
    vel_x := fun _ => 0
    vel_y := fun _ => 0
    lifetime := fun _ => 0
    chunk_active := fun _ => false
    chunk_active_next := fun _ => false
    cells_updated := 0 }

/-- C4.  Amended: the two passes of thermal_update skip every cell whose
chunk is inactive, so such a cell's temperature is NOT recomputed each
tick: after the final buffer swap its temp is the stale temp_next value
from before the tick, and its temp_next is its old temp. -/
theorem thermal_update_skips_inactive (sq : ℚ → ℚ) (rs : ℕ → ℕ) (k : ℕ) (w : World)
    (x y : ℤ)
    (hmask : world_is_chunk_active w (x / CHUNK_SIZE) (y / CHUNK_SIZE) = false) :
    (thermal_update sq rs k w).1.temp (x, y) = w.temp_next (x, y) ∧
    (thermal_update sq rs k w).1.temp_next (x, y) = w.temp (x, y) :=
  thermal_update_stale_cell sq rs k w x y hmask

/-- Witness for C4 at a concrete world: the chunk of cell (0, 0) of
oneWorld is inactive and thermal_update leaves its two buffer entries
swapped but otherwise untouched. -/
theorem thermal_update_skips_inactive_witness :
    world_is_chunk_active oneWorld (0 / CHUNK_SIZE) (0 / CHUNK_SIZE) = false ∧
    (thermal_update (fun t => t) (fun _ => 0) 0 oneWorld).1.temp (0, 0) =
      oneWorld.temp_next (0, 0) ∧
    (thermal_update (fun t => t) (fun _ => 0) 0 oneWorld).1.temp_next (0, 0) =
      oneWorld.temp (0, 0) := by
  have h := thermal_update_skips_inactive (fun t => t) (fun _ => 0) 0 oneWorld 0 0
    (by decide)
  exact ⟨by decide, h.1, h.2⟩

/-- Counterexample to the literal C4: cell (0, 0) of oneWorld lies in an
inactive chunk; after thermal_update its temperature is the stale
temp_next value 777, while the recomputation the claim promises (the
diffusion value read from temp) would give 452. -/
theorem thermal_update_not_recomputing_inactive :
    world_is_chunk_active oneWorld (0 / CHUNK_SIZE) (0 / CHUNK_SIZE) = false ∧
    (thermal_update (fun t => t) (fun _ => 0) 0 oneWorld).1.temp (0, 0) = 777 ∧
    thermal_diffuse_value (fun t => t) oneWorld 0 0 = 452 ∧ (777 : ℚ) ≠ 452 := by
  refine ⟨by decide, ?_, ?_, by norm_num⟩
  · rw [(thermal_update_stale_cell (fun t => t) (fun _ => 0) 0 oneWorld 0 0 (by decide)).1]
    rfl
  · norm_num [thermal_diffuse_value, oneWorld, MAT_FIRE, MAT_EMPTY, AMBIENT_TEMP]

/-- C8.  If every cell of both temperature buffers is within the clamp
range [-100, 2000] before the tick, then after thermal_update every cell
of both buffers is again within the range. -/
theorem thermal_update_temp_range (sq : ℚ → ℚ) (rs : ℕ → ℕ) (k : ℕ) (w : World)
    (ht : ∀ q, tempInRange (w.temp q)) (htn : ∀ q, tempInRange (w.temp_next q)) :
    (∀ q, tempInRange ((thermal_update sq rs k w).1.temp q)) ∧
    (∀ q, tempInRange ((thermal_update sq rs k w).1.temp_next q)) := by
  constructor
  · show ∀ q, tempInRange ((thermal_pass2 rs (thermal_pass1 sq w) k).1.temp_next q)
    exact thermal_pass2_range rs (thermal_pass1 sq w) k (thermal_pass1_range sq w ht htn)
  · show ∀ q, tempInRange ((thermal_pass2 rs (thermal_pass1 sq w) k).1.temp q)
    intro q
    rw [thermal_pass2_temp rs (thermal_pass1 sq w) k, (thermal_pass1_fields sq w).1]
    exact ht q

/-- Witness for C8 at a concrete world: both buffers of oneWorld are in
range and remain so after thermal_update. -/
theorem thermal_update_temp_range_witness :
    (∀ q, tempInRange (oneWorld.temp q)) ∧ (∀ q, tempInRange (oneWorld.temp_next q)) ∧
    ((∀ q, tempInRange ((thermal_update (fun t => t) (fun _ => 0) 0 oneWorld).1.temp q)) ∧
      (∀ q, tempInRange
        ((thermal_update (fun t => t) (fun _ => 0) 0 oneWorld).1.temp_next q))) := by
  have ht : ∀ q, tempInRange (oneWorld.temp q) := by
    intro q
    exact ⟨by norm_num [oneWorld, MIN_TEMPERATURE], by norm_num [oneWorld, MAX_TEMPERATURE]⟩
  have htn : ∀ q, tempInRange (oneWorld.temp_next q) := by
    intro q
    exact ⟨by norm_num [oneWorld, MIN_TEMPERATURE], by norm_num [oneWorld, MAX_TEMPERATURE]⟩
  exact ⟨ht, htn, thermal_update_temp_range (fun t => t) (fun _ => 0) 0 oneWorld ht htn⟩
